import Mathlib

/-!
Shallow embedding of the RepoMatch core: the skill normalizer
(src/lib/skills.ts), the repository scorer (src/lib/scoring.ts) and the
ranking/diversity post-processor, together with theorems checking the
natural-language specification against this embedding.

Conventions of the embedding:
* JavaScript numbers become exact rationals; machine floats are modelled
  exactly (every constant in the source is a short decimal).
* Timestamps are epoch milliseconds as rationals; the ambient clock
  (Date.now and friends) becomes an explicit parameter named now.
* Math.log10, which is irrational-valued, becomes an explicit function
  parameter lg; no verified claim depends on its values.
* Math.random inside the tie-band shuffle becomes an explicit function
  parameter shuffleG applied to each tie group; no verified claim depends
  on the permutation chosen.
* The external memoizing cache is omitted: the spec requires the core to
  behave identically with the cache disabled.
* Fields of RepositoryDetails never read by the normalizer/scorer core
  (clone_url, languages, size, default_branch, owner, html_url) are
  omitted from the record.
-/

/-- ASCII lowercasing of one character (JS toLowerCase on the ASCII
strings this catalog and scorer use). -/
def lowerChar (c : Char) : Char :=
  if 'A' ≤ c ∧ c ≤ 'Z' then Char.ofNat (c.toNat + 32) else c

/-- JS String.prototype.toLowerCase. -/
def lowerStr (s : String) : String :=
  ⟨s.toList.map lowerChar⟩

/-- JS String.prototype.trim: drop whitespace from both ends. -/
def trimStr (s : String) : String :=
  ⟨((s.toList.dropWhile Char.isWhitespace).reverse.dropWhile Char.isWhitespace).reverse⟩

/-- JavaScript String.prototype.includes: substring containment. -/
def containsStr (s sub : String) : Bool :=
  decide (List.IsInfix sub.toList s.toList)

/-- A node of the static skill graph (interface SkillNode). -/
structure SkillNode where
  name : String
  aliases : List String
  category : String
  related : List String
  expanded : List String
deriving DecidableEq, Repr

/-- The resolved form of one user-supplied token (interface NormalizedSkill). -/
structure NormalizedSkill where
  original : String
  normalized : String
  category : String
  expanded : List String
  weight : ℚ
deriving DecidableEq, Repr

/-- The fixed skill catalog built by the normalizer at startup, in source
order (the JS Map preserves insertion order). -/
def skillCatalog : List SkillNode := [
  ⟨"javascript", ["js", "ecmascript"], "language",
    ["typescript", "nodejs", "react", "vue", "angular"],
    ["javascript", "js", "ecmascript", "frontend", "web", "browser"]⟩,
  ⟨"typescript", ["ts"], "language",
    ["javascript", "react", "angular", "nodejs"],
    ["typescript", "ts", "javascript", "js", "frontend", "web", "typed"]⟩,
  ⟨"html", ["html5"], "language",
    ["css", "javascript", "web"],
    ["html", "html5", "markup", "web", "frontend", "semantic"]⟩,
  ⟨"css", ["css3"], "language",
    ["html", "javascript", "scss", "sass"],
    ["css", "css3", "styling", "web", "frontend", "design"]⟩,
  ⟨"react", ["reactjs"], "framework",
    ["javascript", "typescript", "jsx", "redux"],
    ["react", "reactjs", "javascript", "js", "frontend", "web", "ui",
     "component", "jsx", "hooks"]⟩,
  ⟨"vue", ["vuejs"], "framework",
    ["javascript", "typescript", "nuxt"],
    ["vue", "vuejs", "javascript", "js", "frontend", "web", "ui", "component"]⟩,
  ⟨"angular", ["angularjs"], "framework",
    ["typescript", "javascript", "rxjs"],
    ["angular", "angularjs", "typescript", "ts", "javascript", "js",
     "frontend", "web", "ui", "component"]⟩,
  ⟨"svelte", [], "framework",
    ["javascript", "typescript"],
    ["svelte", "javascript", "js", "frontend", "web", "ui", "component"]⟩,
  ⟨"python", ["py"], "language",
    ["django", "flask", "fastapi", "pandas", "numpy"],
    ["python", "py", "backend", "server", "scripting", "data-science"]⟩,
  ⟨"java", [], "language",
    ["spring", "maven", "gradle"],
    ["java", "backend", "server", "enterprise", "jvm"]⟩,
  ⟨"go", ["golang"], "language",
    ["gin", "echo", "fiber"],
    ["go", "golang", "backend", "server", "microservice", "concurrent"]⟩,
  ⟨"rust", [], "language",
    ["actix", "tokio", "serde"],
    ["rust", "backend", "server", "systems", "performance", "memory-safe"]⟩,
  ⟨"php", [], "language",
    ["laravel", "symfony", "composer"],
    ["php", "backend", "server", "web"]⟩,
  ⟨"ruby", [], "language",
    ["rails", "sinatra", "bundler"],
    ["ruby", "backend", "server", "web", "rails"]⟩,
  ⟨"nodejs", ["node"], "platform",
    ["javascript", "express", "koa", "nestjs"],
    ["nodejs", "node", "javascript", "js", "backend", "server", "npm"]⟩,
  ⟨"django", [], "framework",
    ["python", "djangorestframework"],
    ["django", "python", "py", "backend", "server", "web", "mvc", "orm"]⟩,
  ⟨"flask", [], "framework",
    ["python", "sqlalchemy"],
    ["flask", "python", "py", "backend", "server", "web", "microframework"]⟩,
  ⟨"express", ["expressjs"], "framework",
    ["nodejs", "javascript"],
    ["express", "expressjs", "nodejs", "node", "javascript", "js",
     "backend", "server", "web"]⟩,
  ⟨"spring", ["springboot"], "framework",
    ["java", "maven"],
    ["spring", "springboot", "java", "backend", "server", "enterprise",
     "dependency-injection"]⟩,
  ⟨"postgresql", ["postgres"], "tool",
    ["sql", "database"],
    ["postgresql", "postgres", "sql", "database", "db", "relational"]⟩,
  ⟨"mysql", [], "tool",
    ["sql", "database"],
    ["mysql", "sql", "database", "db", "relational"]⟩,
  ⟨"mongodb", ["mongo"], "tool",
    ["nosql", "database"],
    ["mongodb", "mongo", "nosql", "database", "db", "document"]⟩,
  ⟨"redis", [], "tool",
    ["cache", "database"],
    ["redis", "cache", "database", "db", "key-value", "in-memory"]⟩,
  ⟨"docker", [], "tool",
    ["kubernetes", "containerization"],
    ["docker", "container", "containerization", "devops", "deployment"]⟩,
  ⟨"kubernetes", ["k8s"], "tool",
    ["docker", "containerization"],
    ["kubernetes", "k8s", "container", "orchestration", "devops", "deployment"]⟩,
  ⟨"aws", ["amazon web services"], "platform",
    ["cloud", "devops"],
    ["aws", "amazon web services", "cloud", "devops", "infrastructure"]⟩,
  ⟨"git", [], "tool",
    ["github", "gitlab"],
    ["git", "version-control", "vcs", "scm"]⟩,
  ⟨"machine learning", ["ml"], "concept",
    ["python", "tensorflow", "pytorch", "scikit-learn"],
    ["machine learning", "ml", "ai", "artificial intelligence",
     "data-science", "python", "py"]⟩,
  ⟨"tensorflow", ["tf"], "library",
    ["python", "machine learning"],
    ["tensorflow", "tf", "python", "py", "machine learning", "ml",
     "deep learning", "neural network"]⟩,
  ⟨"pytorch", [], "library",
    ["python", "machine learning"],
    ["pytorch", "python", "py", "machine learning", "ml", "deep learning",
     "neural network"]⟩,
  ⟨"pandas", [], "library",
    ["python", "data science"],
    ["pandas", "python", "py", "data-science", "data-analysis", "dataframe"]⟩,
  ⟨"react native", ["reactnative"], "framework",
    ["react", "javascript", "mobile"],
    ["react native", "reactnative", "react", "javascript", "js", "mobile",
     "ios", "android", "cross-platform"]⟩,
  ⟨"flutter", [], "framework",
    ["dart", "mobile"],
    ["flutter", "dart", "mobile", "ios", "android", "cross-platform", "ui"]⟩,
  ⟨"swift", [], "language",
    ["ios", "mobile"],
    ["swift", "ios", "mobile", "apple", "objective-c"]⟩,
  ⟨"kotlin", [], "language",
    ["android", "mobile"],
    ["kotlin", "android", "mobile", "jvm", "java"]⟩]

/-- Lookup in the skill graph Map (keys are node names lowercased; node
names are unique, so first-match lookup equals Map.get). -/
def lookupSkill (key : String) : Option SkillNode :=
  skillCatalog.find? (fun n => lowerStr n.name = key)

/-- First node whose alias list contains the token (iteration follows Map
insertion order, as in the source loop over skillGraph.entries()). -/
def aliasLookup (key : String) : Option SkillNode :=
  skillCatalog.find? (fun n => n.aliases.contains key)

/-- The fixed bidirectional abbreviation table of generateVariations. -/
def abbreviationTable : List (String × List String) := [
  ("javascript", ["js"]),
  ("typescript", ["ts"]),
  ("python", ["py"]),
  ("react", ["reactjs"]),
  ("vue", ["vuejs"]),
  ("angular", ["angularjs"]),
  ("node", ["nodejs"]),
  ("machine learning", ["ml", "machinelearning"]),
  ("artificial intelligence", ["ai"]),
  ("user interface", ["ui"]),
  ("user experience", ["ux"]),
  ("application programming interface", ["api"]),
  ("representational state transfer", ["rest"]),
  ("graphql", ["gql"]),
  ("cascading style sheets", ["css"]),
  ("hypertext markup language", ["html"])]

/-- JS skill.replace with a global digit pattern and empty replacement:
drop every digit character. -/
def stripDigits (s : String) : String :=
  ⟨s.toList.filter (fun c => !c.isDigit)⟩

/-- Generate common variations of a skill name (generateVariations). -/
def generateVariations (skill : String) : List String :=
  let base := [skill]
  let withAbbrev := abbreviationTable.foldl (fun acc p =>
    let acc := if containsStr skill p.1 then acc ++ p.2 else acc
    p.2.foldl (fun acc2 ab => if containsStr skill ab then acc2 ++ [p.1] else acc2) acc) base
  if skill.toList.any Char.isDigit then
    withAbbrev ++ [stripDigits skill]
  else
    withAbbrev ++ [skill ++ "3", skill ++ "2", skill ++ "1"]

/-- Find fuzzy matches for skills: first variation with a direct graph hit. -/
def findFuzzyMatch (skill : String) : Option SkillNode :=
  (generateVariations skill).findSome? lookupSkill

/-- Trim and lowercase a raw token. -/
def cleanToken (skill : String) : String :=
  lowerStr (trimStr skill)

/-- Normalize a single skill (SkillNormalizer.normalizeSkill): direct
match at weight 1.0, else alias match at 0.9, else fuzzy match at 0.8,
else fallback at 0.5; empty-after-trim tokens yield none. -/
def normalizeSkill (skill : String) : Option NormalizedSkill :=
  let cleanSkill := cleanToken skill
  if cleanSkill = "" then none
  else
    match lookupSkill cleanSkill with
    | some node => some ⟨skill, node.name, node.category, node.expanded, 1⟩
    | none =>
      match aliasLookup cleanSkill with
      | some node => some ⟨skill, node.name, node.category, node.expanded, 9/10⟩
      | none =>
        match findFuzzyMatch cleanSkill with
        | some node => some ⟨skill, node.name, node.category, node.expanded, 4/5⟩
        | none => some ⟨skill, cleanSkill, "concept", [cleanSkill], 1/2⟩

/-- Deduplication key: normalized name lowercased. -/
def normKey (n : NormalizedSkill) : String :=
  lowerStr n.normalized

/-- One step of the normalizeSkills accumulation Map: a new key is
appended, an already-seen key has the incoming weight added in place. -/
def insertSkill (acc : List NormalizedSkill) (ns : NormalizedSkill) : List NormalizedSkill :=
  if acc.any (fun e => decide (normKey e = normKey ns)) then
    acc.map (fun e => if normKey e = normKey ns then
      { e with weight := e.weight + ns.weight } else e)
  else
    acc ++ [ns]

/-- The body of the normalizeSkills loop: resolve one token and fold it
into the accumulated Map. -/
def normalizeStep (acc : List NormalizedSkill) (s : String) : List NormalizedSkill :=
  match normalizeSkill s with
  | some ns => insertSkill acc ns
  | none => acc

/-- Normalize and expand a list of skills (SkillNormalizer.normalizeSkills,
with the external cache disabled as the spec allows). -/
def normalizeSkills (skills : List String) : List NormalizedSkill :=
  skills.foldl normalizeStep []

/-! ## Repository scoring data model (src/lib/scoring.ts, src/lib/github.ts) -/

/-- Enriched commit analysis block (interface CommitAnalysis). -/
structure CommitAnalysis where
  frequency : ℚ
  recency : ℚ
  contributorDistribution : ℚ
  averageCommitSize : ℚ
  commitMessageQuality : ℚ
  branchActivity : ℚ
deriving DecidableEq, Repr

/-- Enriched issue analysis block (interface IssueAnalysis). -/
structure IssueAnalysis where
  responseTime : ℚ
  resolutionRate : ℚ
  maintainerActivity : ℚ
  communityEngagement : ℚ
  issueQuality : ℚ
  labelUsage : ℚ
deriving DecidableEq, Repr

/-- Enriched dependency analysis block (interface DependencyAnalysis). -/
structure DependencyAnalysis where
  healthScore : ℚ
  securityScore : ℚ
  updateFrequency : ℚ
  dependencyCount : ℚ
  outdatedDependencies : ℚ
  licenseCompatibility : ℚ
deriving DecidableEq, Repr

/-- Enriched README analysis block (interface ReadmeAnalysis). -/
structure ReadmeAnalysis where
  contentQuality : ℚ
  skillKeywords : List String
  projectType : String
  complexity : ℚ
  learningResources : ℚ
  setupDifficulty : ℚ
deriving DecidableEq, Repr

/-- Optional enrichment bundle; the scorer guards every sub-block with the
JS optional-chaining operator, so each block is optional here. -/
structure EnrichedRepositoryData where
  commitAnalysis : Option CommitAnalysis
  issueAnalysis : Option IssueAnalysis
  dependencyAnalysis : Option DependencyAnalysis
  readmeAnalysis : Option ReadmeAnalysis
deriving DecidableEq, Repr

/-- License object: the scorer only reads its name. -/
structure License where
  name : String
deriving DecidableEq, Repr

/-- Read-only repository view consumed by the scorer. Timestamps are the
getTime() values (epoch milliseconds) of the corresponding ISO strings;
string/list/object fields that JS treats as possibly absent are Options. -/
structure RepositoryDetails where
  id : ℕ
  name : String
  full_name : String
  description : Option String
  stargazers_count : ℕ
  forks_count : ℕ
  open_issues_count : ℕ
  language : Option String
  topics : Option (List String)
  goodFirstIssues : ℕ
  created_at : ℚ
  updated_at : ℚ
  pushed_at : ℚ
  homepage : Option String
  license : Option License
  enrichedData : Option EnrichedRepositoryData
deriving DecidableEq, Repr, Inhabited

/-- Scoring mode (profile-building, learning, quick-wins). -/
inductive Mode where
  | profileBuilding
  | learning
  | quickWins
deriving DecidableEq, Repr

/-- Weight triple (interface ScoringWeights). -/
structure ScoringWeights where
  relevance : ℚ
  quality : ℚ
  opportunity : ℚ
deriving DecidableEq, Repr

/-- Caller-supplied partial weight overrides (Partial of ScoringWeights). -/
structure WeightOverrides where
  relevance : Option ℚ
  quality : Option ℚ
  opportunity : Option ℚ
deriving DecidableEq, Repr

/-- Scoring options (interface ScoringOptions). -/
structure ScoringOptions where
  mode : Option Mode
  weights : Option WeightOverrides
  minStars : Option ℕ
  maxStars : Option ℕ
deriving DecidableEq, Repr

/-- Sub-score breakdown record of a RepositoryScore. -/
structure ScoreBreakdown where
  languageMatch : ℚ
  topicMatch : ℚ
  readmeMatch : ℚ
  starsScore : ℚ
  activityScore : ℚ
  documentationScore : ℚ
  issueScore : ℚ
  contributorScore : ℚ
  commitActivityScore : ℚ
  issueResponseScore : ℚ
  dependencyHealthScore : ℚ
  readmeQualityScore : ℚ
  skillMatchScore : ℚ
deriving DecidableEq, Repr, Inhabited

/-- Output of scoring one repository (interface RepositoryScore). -/
structure RepositoryScore where
  relevance : ℚ
  quality : ℚ
  opportunity : ℚ
  final : ℚ
  breakdown : ScoreBreakdown
deriving DecidableEq, Repr, Inhabited

/-- JS truthiness of an optional string (the empty string is falsy). -/
def optStr (s : Option String) : Option String :=
  match s with
  | some v => if v = "" then none else some v
  | none => none

/-- Mode-specific top-level weights (RepositoryScorer.getModeWeights). -/
def getModeWeights : Mode → ScoringWeights
  | .learning => ⟨3/10, 1/2, 1/5⟩
  | .quickWins => ⟨1/5, 1/10, 7/10⟩
  | .profileBuilding => ⟨3/5, 3/10, 1/10⟩

/-- Apply caller overrides field-by-field over the mode weights (the JS
object spread of options.weights over the mode table). -/
def mergeWeights (base : ScoringWeights) (o : Option WeightOverrides) : ScoringWeights :=
  match o with
  | none => base
  | some w => ⟨w.relevance.getD base.relevance, w.quality.getD base.quality,
               w.opportunity.getD base.opportunity⟩

/-- The fixed list used by RepositoryScorer.isLanguage. -/
def knownLanguages : List String := [
  "javascript", "typescript", "python", "java", "c++", "c#", "go", "rust",
  "php", "ruby", "swift", "kotlin", "scala", "clojure", "haskell", "elixir",
  "dart", "r", "matlab", "perl", "lua", "shell", "powershell", "html", "css",
  "scss", "sass", "less", "vue", "react", "angular", "svelte"]

/-- Check if a string represents a programming language (isLanguage). -/
def isLanguage (str : String) : Bool :=
  knownLanguages.contains (lowerStr str)

/-- Language matching score (calculateLanguageMatch). -/
def calculateLanguageMatch (repo : RepositoryDetails) (skills : List NormalizedSkill) : ℚ :=
  match optStr repo.language, skills with
  | some lang, _ :: _ =>
    let repoLanguage := lowerStr lang
    let skillLanguages := (skills.filter (fun sk => sk.category == "language")).map
      (fun sk => lowerStr sk.normalized)
    if skillLanguages.contains repoLanguage then 1
    else
      let expandedLanguages := ((skills.flatMap (fun sk => sk.expanded)).filter
        (fun e => isLanguage e)).map lowerStr
      if expandedLanguages.contains repoLanguage then 4/5
      else
        let relatedLanguages := (skills.flatMap (fun sk => sk.expanded)).filter
          (fun e => containsStr e repoLanguage || containsStr repoLanguage e)
        if relatedLanguages.length > 0 then 3/5 else 0
  | _, _ => 0

/-- Topic matching score (calculateTopicMatch). -/
def calculateTopicMatch (repo : RepositoryDetails) (skills : List NormalizedSkill) : ℚ :=
  match repo.topics, skills with
  | some (t0 :: ts), _ :: _ =>
    let repoTopics := (t0 :: ts).map lowerStr
    let skillTopics := (skills.flatMap (fun sk => sk.normalized :: sk.expanded)).map lowerStr
    let matched := repoTopics.filter (fun t => skillTopics.any
      (fun st => t == st || containsStr t st || containsStr st t))
    let matchFrac : ℚ := (matched.length : ℚ) / ((max repoTopics.length 1 : ℕ) : ℚ)
    min (matchFrac * 2) 1
  | _, _ => 0

/-- README/description keyword matching score (calculateReadmeMatch). -/
def calculateReadmeMatch (repo : RepositoryDetails) (skills : List NormalizedSkill) : ℚ :=
  match optStr repo.description, skills with
  | some desc, _ :: _ =>
    let description := lowerStr desc
    let skillKeywords := (skills.flatMap (fun sk => sk.normalized :: sk.expanded)).map lowerStr
    let matched := skillKeywords.filter (fun kw => containsStr description kw)
    let matchFrac : ℚ := (matched.length : ℚ) / (skillKeywords.length : ℚ)
    min (matchFrac * 3) 1
  | _, _ => 0

/-- Tiered, hard-capped stars score (calculateStarsScore). -/
def calculateStarsScore (stars : ℕ) : ℚ :=
  if stars = 0 then 0
  else if stars > 20000 then 1/2
  else if stars > 5000 then 3/5
  else if stars > 1000 then 7/10
  else min ((stars : ℚ) / 1000) (7/10)

/-- Days elapsed at clock instant now since the repository's most recent
activity (max of updated and pushed timestamps). -/
def daysSinceActivity (now : ℚ) (repo : RepositoryDetails) : ℚ :=
  (now - max repo.updated_at repo.pushed_at) / 86400000

/-- Days elapsed since the updated timestamp. -/
def daysSinceUpdate (now : ℚ) (repo : RepositoryDetails) : ℚ :=
  (now - repo.updated_at) / 86400000

/-- Days elapsed since the created timestamp. -/
def daysSinceCreated (now : ℚ) (repo : RepositoryDetails) : ℚ :=
  (now - repo.created_at) / 86400000

/-- Activity score with freshness weighting (calculateActivityScore). -/
def calculateActivityScore (now : ℚ) (repo : RepositoryDetails) : ℚ :=
  let d := daysSinceActivity now repo
  let baseScore : ℚ :=
    if d ≤ 1 then 1
    else if d ≤ 7 then 19/20
    else if d ≤ 30 then 4/5
    else if d ≤ 90 then 3/5
    else if d ≤ 365 then 3/10
    else 1/10
  let baseScore := if d ≤ 3 then baseScore + 1/20 else baseScore
  min baseScore 1

/-- JS truthy description with a length strictly above n. -/
def descLongerThan (repo : RepositoryDetails) (n : ℕ) : Bool :=
  match repo.description with
  | some d => decide (d.length > n)
  | none => false

/-- Missing or short description (the learning-mode documentation check). -/
def descShorterThan (repo : RepositoryDetails) (n : ℕ) : Bool :=
  match repo.description with
  | some d => decide (d.length < n)
  | none => true

/-- License present and not named Other. -/
def licenseNotOther (repo : RepositoryDetails) : Bool :=
  match repo.license with
  | some l => decide (l.name ≠ "Other")
  | none => false

/-- Non-empty topic list present. -/
def hasTopics (repo : RepositoryDetails) : Bool :=
  match repo.topics with
  | some (_ :: _) => true
  | _ => false

/-- Documentation score (calculateDocumentationScore). -/
def calculateDocumentationScore (repo : RepositoryDetails) : ℚ :=
  let s : ℚ := if descLongerThan repo 20 then 3/10 else 0
  let s := s + (if (optStr repo.homepage).isSome then 1/5 else 0)
  let s := s + (if licenseNotOther repo then 1/5 else 0)
  let s := s + (if hasTopics repo then 1/10 else 0)
  let s := s + (if repo.goodFirstIssues > 0 then 1/5 else 0)
  min s 1

/-- Issue score based on good-first-issue density (calculateIssueScore). -/
def calculateIssueScore (repo : RepositoryDetails) : ℚ :=
  let totalIssues := repo.open_issues_count
  let goodFirstIssues := repo.goodFirstIssues
  if totalIssues = 0 then 1/2
  else
    let issueDensity : ℚ := (goodFirstIssues : ℚ) / (totalIssues : ℚ)
    let baseScore : ℚ :=
      if issueDensity ≥ 1/10 then 1
      else if issueDensity ≥ 1/20 then 4/5
      else if issueDensity ≥ 1/50 then 3/5
      else if issueDensity > 0 then 2/5
      else 1/5
    let activityBonus := min ((totalIssues : ℚ) / 20) (1/10)
    min (baseScore + activityBonus) 1

/-- Contributor score heuristic (calculateContributorScore). -/
def calculateContributorScore (repo : RepositoryDetails) : ℚ :=
  let forkScore := min ((repo.forks_count : ℚ) / 100) 1 * (3/5)
  let starScore := min ((repo.stargazers_count : ℚ) / 1000) 1 * (2/5)
  forkScore + starScore

/-- Commit activity score from enriched data (calculateCommitActivityScore). -/
def calculateCommitActivityScore (repo : RepositoryDetails) : ℚ :=
  match repo.enrichedData with
  | none => 0
  | some ed =>
    match ed.commitAnalysis with
    | none => 0
    | some ca =>
      let frequencyScore := min (ca.frequency / 5) 1
      let recencyScore := max 0 (1 - ca.recency / 30)
      let activityScore :=
        frequencyScore * (3/10) + recencyScore * (3/10) +
        ca.contributorDistribution * (1/5) + ca.commitMessageQuality * (1/10) +
        ca.branchActivity * (1/10)
      min activityScore 1

/-- Issue response score from enriched data (calculateIssueResponseScore). -/
def calculateIssueResponseScore (repo : RepositoryDetails) : ℚ :=
  match repo.enrichedData with
  | none => 0
  | some ed =>
    match ed.issueAnalysis with
    | none => 0
    | some ia =>
      let responseScore := max 0 (1 - ia.responseTime / 24)
      let responseQualityScore :=
        responseScore * (3/10) + ia.resolutionRate * (1/4) +
        ia.maintainerActivity * (1/5) + ia.communityEngagement * (3/20) +
        ia.issueQuality * (1/20) + ia.labelUsage * (1/20)
      min responseQualityScore 1

/-- Dependency health score from enriched data (calculateDependencyHealthScore). -/
def calculateDependencyHealthScore (repo : RepositoryDetails) : ℚ :=
  match repo.enrichedData with
  | none => 0
  | some ed =>
    match ed.dependencyAnalysis with
    | none => 0
    | some da =>
      let outdatedRat : ℚ :=
        if da.dependencyCount > 0 then da.outdatedDependencies / da.dependencyCount else 0
      let outdatedScore := max 0 (1 - outdatedRat)
      let dependencyScore :=
        da.healthScore * (3/10) + da.securityScore * (1/4) +
        da.updateFrequency * (3/20) + outdatedScore * (1/5) +
        da.licenseCompatibility * (1/10)
      min dependencyScore 1

/-- README quality score from enriched data (calculateReadmeQualityScore). -/
def calculateReadmeQualityScore (repo : RepositoryDetails) : ℚ :=
  match repo.enrichedData with
  | none => 0
  | some ed =>
    match ed.readmeAnalysis with
    | none => 0
    | some ra =>
      let learningScore := min (ra.learningResources / 5) 1
      let setupScore := max 0 (1 - ra.setupDifficulty)
      let readmeScore :=
        ra.contentQuality * (1/2) + learningScore * (3/10) + setupScore * (1/5)
      min readmeScore 1

/-- Skill-match-in-README score from enriched data (calculateSkillMatchScore). -/
def calculateSkillMatchScore (repo : RepositoryDetails) (skills : List NormalizedSkill) : ℚ :=
  match repo.enrichedData with
  | none => 0
  | some ed =>
    match ed.readmeAnalysis with
    | none => 0
    | some ra =>
      match skills with
      | [] => 0
      | _ :: _ =>
        let readmeSkills := ra.skillKeywords
        let userSkills := skills.map (fun sk => lowerStr sk.normalized)
        let userExpandedSkills := skills.flatMap (fun sk => sk.expanded.map lowerStr)
        let directMatches := (userSkills.filter (fun s => readmeSkills.any
          (fun rs => containsStr (lowerStr rs) s || containsStr s (lowerStr rs)))).length
        let expandedMatches := (userExpandedSkills.filter (fun e => readmeSkills.any
          (fun rs => containsStr (lowerStr rs) e || containsStr e (lowerStr rs)))).length
        let matched : ℚ := (directMatches : ℚ) + (expandedMatches : ℚ) * (1/2)
        let totalSkills := userSkills.length
        if totalSkills > 0 then min (matched / (totalSkills : ℚ)) 1 else 0

/-- Relevance score with mode-specific sub-weights (calculateRelevanceScore). -/
def calculateRelevanceScore (repo : RepositoryDetails) (skills : List NormalizedSkill)
    (options : ScoringOptions) : ℚ :=
  let languageMatch := calculateLanguageMatch repo skills
  let topicMatch := calculateTopicMatch repo skills
  let readmeMatch := calculateReadmeMatch repo skills
  let skillMatchScore := calculateSkillMatchScore repo skills
  match options.mode with
  | some .learning =>
    languageMatch * (1/5) + topicMatch * (2/5) + readmeMatch * (1/5) + skillMatchScore * (1/5)
  | some .quickWins =>
    languageMatch * (1/5) + topicMatch * (1/5) + readmeMatch * (3/10) + skillMatchScore * (3/10)
  | _ =>
    languageMatch * (3/10) + topicMatch * (3/10) + readmeMatch * (1/5) + skillMatchScore * (1/5)

/-- Quality score with community validation boosts (calculateQualityScore).
The profile-building weight table in the source equals the default table. -/
def calculateQualityScore (now : ℚ) (repo : RepositoryDetails)
    (options : ScoringOptions) : ℚ :=
  let starsScore := calculateStarsScore repo.stargazers_count
  let activityScore := calculateActivityScore now repo
  let documentationScore := calculateDocumentationScore repo
  let commitActivityScore := calculateCommitActivityScore repo
  let dependencyHealthScore := calculateDependencyHealthScore repo
  let readmeQualityScore := calculateReadmeQualityScore repo
  let qualityScore :=
    match options.mode with
    | some .learning =>
      starsScore * (1/4) + activityScore * (3/20) + documentationScore * (1/4) +
      commitActivityScore * (3/20) + dependencyHealthScore * (1/10) +
      readmeQualityScore * (1/10)
    | some .quickWins =>
      starsScore * (2/5) + activityScore * (1/4) + documentationScore * (1/10) +
      commitActivityScore * (3/20) + dependencyHealthScore * (1/20) +
      readmeQualityScore * (1/20)
    | _ =>
      starsScore * (3/10) + activityScore * (1/5) + documentationScore * (3/20) +
      commitActivityScore * (3/20) + dependencyHealthScore * (1/10) +
      readmeQualityScore * (1/10)
  let qualityScore := qualityScore +
    (if 50 ≤ repo.stargazers_count ∧ repo.stargazers_count ≤ 500 then 1/10 else 0)
  let qualityScore := qualityScore +
    (if repo.forks_count > 0 then min ((repo.forks_count : ℚ) / 20) (1/20) else 0)
  min qualityScore 1

/-- Opportunity score with mode-specific sub-weights (calculateOpportunityScore). -/
def calculateOpportunityScore (repo : RepositoryDetails) (options : ScoringOptions) : ℚ :=
  let issueScore := calculateIssueScore repo
  let contributorScore := calculateContributorScore repo
  let issueResponseScore := calculateIssueResponseScore repo
  match options.mode with
  | some .learning =>
    issueScore * (3/5) + contributorScore * (1/5) + issueResponseScore * (1/5)
  | some .quickWins =>
    issueScore * (3/5) + contributorScore * (1/10) + issueResponseScore * (3/10)
  | _ =>
    issueScore * (1/2) + contributorScore * (3/10) + issueResponseScore * (1/5)

/-- JS truthy test of the description followed by a lowercase keyword search. -/
def descHas (repo : RepositoryDetails) (kw : String) : Bool :=
  match optStr repo.description with
  | some d => containsStr (lowerStr d) kw
  | none => false

/-- Topic list membership test used by the mode bonuses. -/
def topicsAny (repo : RepositoryDetails) (kws : List String) : Bool :=
  match repo.topics with
  | some ts => ts.any (fun t => kws.contains (lowerStr t))
  | none => false

/-- The additive bonus accumulated by the switch in applyModeBonuses; a
missing mode matches no case and accumulates nothing. -/
def calculateModeBonus (now : ℚ) (repo : RepositoryDetails)
    (options : ScoringOptions) : ℚ :=
  match options.mode with
  | some .learning =>
    (if repo.goodFirstIssues > 10 then 3/10
     else if repo.goodFirstIssues > 5 then 1/5
     else if repo.goodFirstIssues > 0 then 1/10 else 0)
    + (if descHas repo "tutorial" then 3/20 else 0)
    + (if descHas repo "example" then 3/20 else 0)
    + (if descHas repo "learn" then 1/10 else 0)
    + (if descHas repo "beginner" then 1/10 else 0)
    + (if topicsAny repo ["tutorial", "example", "learning", "beginner",
         "documentation", "education"] then 1/5 else 0)
    + (if descLongerThan repo 100 then 1/10 else 0)
  | some .quickWins =>
    (if repo.goodFirstIssues > 0 then 2/5 else 0)
    + (if 5 ≤ repo.open_issues_count ∧ repo.open_issues_count ≤ 50 then 3/10
       else if 50 < repo.open_issues_count ∧ repo.open_issues_count ≤ 100 then 1/5
       else if 100 < repo.open_issues_count ∧ repo.open_issues_count ≤ 200 then 1/10
       else 0)
    + (if 50 ≤ repo.stargazers_count ∧ repo.stargazers_count ≤ 2000 then 1/5
       else if 2000 < repo.stargazers_count ∧ repo.stargazers_count ≤ 5000 then 1/10
       else 0)
    + (if topicsAny repo ["good-first-issue", "help-wanted", "hacktoberfest",
         "contribution"] then 3/10 else 0)
    + (if daysSinceUpdate now repo ≤ 7 then 1/5
       else if daysSinceUpdate now repo ≤ 30 then 1/10 else 0)
  | some .profileBuilding =>
    (if repo.stargazers_count > 5000 then 2/5
     else if repo.stargazers_count > 1000 then 3/10
     else if repo.stargazers_count > 500 then 1/5
     else if repo.stargazers_count > 100 then 1/10 else 0)
    + (if topicsAny repo ["popular", "trending", "awesome", "production",
         "enterprise"] then 1/5 else 0)
    + (if descHas repo "production" then 3/20 else 0)
    + (if descHas repo "enterprise" then 3/20 else 0)
    + (if descHas repo "framework" then 1/10 else 0)
    + (if descHas repo "library" then 1/10 else 0)
    + (if daysSinceCreated now repo > 365 then 1/10 else 0)
  | none => 0

/-- Size penalty for repositories that are too big to matter
(calculateSizePenalty); lg embeds Math.log10. -/
def calculateSizePenalty (lg : ℚ → ℚ) (repo : RepositoryDetails) : ℚ :=
  (if repo.open_issues_count > 5000 then 3/10
   else if repo.open_issues_count > 1000 then 3/20 else 0)
  + (if repo.stargazers_count > 1000 then lg (repo.stargazers_count : ℚ) * (2/25) else 0)
  + (if repo.stargazers_count > 10000 then 3/20 else 0)

/-- Mode-specific negative filters (calculateModePenalties); the universal
low-star penalty applies in every mode, and a missing mode matches no case. -/
def calculateModePenalties (now : ℚ) (repo : RepositoryDetails)
    (options : ScoringOptions) : ℚ :=
  (if repo.stargazers_count < 10 then 3/10
   else if repo.stargazers_count < 20 then 3/20 else 0)
  + (match options.mode with
     | some .learning =>
       (if repo.goodFirstIssues = 0 then 1/2 else 0)
       + (if descShorterThan repo 50 then 3/10 else 0)
       + (if daysSinceUpdate now repo > 365 then 1/5 else 0)
     | some .quickWins =>
       (if repo.open_issues_count > 500 then 3/5
        else if repo.open_issues_count > 200 then 2/5
        else if repo.open_issues_count > 100 then 1/5 else 0)
       + (if repo.open_issues_count = 0 then 1/2 else 0)
       + (if repo.stargazers_count > 10000 then 3/10 else 0)
       + (if daysSinceUpdate now repo > 180 then 3/10 else 0)
     | some .profileBuilding =>
       (if repo.stargazers_count < 50 then 1/2
        else if repo.stargazers_count < 100 then 3/10
        else if repo.stargazers_count < 200 then 1/10 else 0)
       + (if daysSinceCreated now repo < 30 then 3/10
          else if daysSinceCreated now repo < 90 then 1/10 else 0)
       + (if repo.stargazers_count > 50000 then 1/5 else 0)
     | none => 0)

/-- Mode bonuses and penalties around the weighted sum, clamped to the
unit interval (applyModeBonuses). -/
def applyModeBonuses (lg : ℚ → ℚ) (now : ℚ) (baseScore : ℚ)
    (repo : RepositoryDetails) (options : ScoringOptions) : ℚ :=
  let penalty := calculateSizePenalty lg repo + calculateModePenalties now repo options
  let bonus := calculateModeBonus now repo options
  max 0 (min (baseScore + bonus - penalty) 1)

/-- Freshness multiplier: 1.2x when last activity is within 7 days
(applyFreshnessBoost), applied after the clamp with no re-clamp. -/
def applyFreshnessBoost (now : ℚ) (baseScore : ℚ) (repo : RepositoryDetails) : ℚ :=
  if daysSinceActivity now repo ≤ 7 then baseScore * (6/5) else baseScore

/-- Composite per-repository scorer (RepositoryScorer.scoreRepository). -/
def scoreRepository (lg : ℚ → ℚ) (now : ℚ) (repo : RepositoryDetails)
    (skills : List NormalizedSkill) (options : ScoringOptions) : RepositoryScore :=
  let modeWeights := getModeWeights (options.mode.getD .profileBuilding)
  let weights := mergeWeights modeWeights options.weights
  let relevanceScore := calculateRelevanceScore repo skills options
  let qualityScore := calculateQualityScore now repo options
  let opportunityScore := calculateOpportunityScore repo options
  let finalScore :=
    relevanceScore * weights.relevance +
    qualityScore * weights.quality +
    opportunityScore * weights.opportunity
  let finalScore := applyModeBonuses lg now finalScore repo options
  let finalScore := applyFreshnessBoost now finalScore repo
  { relevance := relevanceScore
    quality := qualityScore
    opportunity := opportunityScore
    final := finalScore
    breakdown :=
      { languageMatch := calculateLanguageMatch repo skills
        topicMatch := calculateTopicMatch repo skills
        readmeMatch := calculateReadmeMatch repo skills
        starsScore := calculateStarsScore repo.stargazers_count
        activityScore := calculateActivityScore now repo
        documentationScore := calculateDocumentationScore repo
        issueScore := calculateIssueScore repo
        contributorScore := calculateContributorScore repo
        commitActivityScore := calculateCommitActivityScore repo
        issueResponseScore := calculateIssueResponseScore repo
        dependencyHealthScore := calculateDependencyHealthScore repo
        readmeQualityScore := calculateReadmeQualityScore repo
        skillMatchScore := calculateSkillMatchScore repo skills } }

/-! ## Ranking and diversity post-processing -/

/-- A repository paired with its score, the element type of the ranked list. -/
structure ScoredRepo where
  repo : RepositoryDetails
  score : RepositoryScore
deriving DecidableEq, Repr, Inhabited

/-- Whether another entry's final score is within 3 percent (relative to
the group head) of the head's final score. -/
def closeTo (first other : ScoredRepo) : Bool :=
  decide (|other.score.final - first.score.final| / first.score.final ≤ 3/100)

/-- Consecutive tie-band grouping of a sorted list (the scan loop of
randomizeCloseScores); the fuel starts at the list length, which bounds
the number of groups since every group consumes at least its head. -/
def groupCloseAux : ℕ → List ScoredRepo → List (List ScoredRepo)
  | 0, _ => []
  | _, [] => []
  | fuel + 1, x :: rest =>
    (x :: rest.takeWhile (closeTo x)) :: groupCloseAux fuel (rest.dropWhile (closeTo x))

def groupCloseScores (l : List ScoredRepo) : List (List ScoredRepo) :=
  groupCloseAux l.length l

/-- Shuffle each tie band and concatenate (randomizeCloseScores); the
Math.random shuffle of each group is the explicit parameter shuffleG. -/
def randomizeCloseScores (shuffleG : List ScoredRepo → List ScoredRepo)
    (l : List ScoredRepo) : List ScoredRepo :=
  (groupCloseScores l).flatMap shuffleG

/-- Insert an entry into a descending-sorted list, before the first entry
whose final score does not exceed it. -/
def insertByFinal (a : ScoredRepo) : List ScoredRepo → List ScoredRepo
  | [] => [a]
  | b :: bs => if b.score.final ≤ a.score.final then a :: b :: bs else b :: insertByFinal a bs

/-- Stable descending sort by final score. The JS comparator sort is
specified to be stable, and every stable sort under this comparator
produces exactly this list. -/
def sortByFinal (l : List ScoredRepo) : List ScoredRepo :=
  l.foldr insertByFinal []

/-- Membership tests for the three diversity tiers. -/
def isSmallTier (x : ScoredRepo) : Bool :=
  decide (50 ≤ x.repo.stargazers_count ∧ x.repo.stargazers_count < 500)

def isMediumTier (x : ScoredRepo) : Bool :=
  decide (500 ≤ x.repo.stargazers_count ∧ x.repo.stargazers_count < 2000)

def isLargeTier (x : ScoredRepo) : Bool :=
  decide (2000 ≤ x.repo.stargazers_count)

/-- The emission loop of applyDiversityTiers: at step i the 4-step cycle
designates a tier; if the designated tier is exhausted the loop falls back
to the smallest non-exhausted tier, and stops when every tier is exhausted
or the result bound (the fuel) is reached. -/
def tierLoop (S M L : List ScoredRepo) : ℕ → ℕ → ℕ → ℕ → ℕ → List ScoredRepo
  | 0, _, _, _, _ => []
  | fuel + 1, i, si, mi, li =>
    if ((i % 4 = 0 ∨ i % 4 = 1) ∧ si < S.length) then
      (S[si]?).toList ++ tierLoop S M L fuel (i + 1) (si + 1) mi li
    else if (i % 4 = 2 ∧ mi < M.length) then
      (M[mi]?).toList ++ tierLoop S M L fuel (i + 1) si (mi + 1) li
    else if (i % 4 = 3 ∧ li < L.length) then
      (L[li]?).toList ++ tierLoop S M L fuel (i + 1) si mi (li + 1)
    else if si < S.length then
      (S[si]?).toList ++ tierLoop S M L fuel (i + 1) (si + 1) mi li
    else if mi < M.length then
      (M[mi]?).toList ++ tierLoop S M L fuel (i + 1) si (mi + 1) li
    else if li < L.length then
      (L[li]?).toList ++ tierLoop S M L fuel (i + 1) si mi (li + 1)
    else []

/-- Aggressive diversity tiering (applyDiversityTiers). -/
def applyDiversityTiers (l : List ScoredRepo) : List ScoredRepo :=
  let smallRepos := l.filter isSmallTier
  let mediumRepos := l.filter isMediumTier
  let largeRepos := l.filter isLargeTier
  let maxResults := min l.length 50
  tierLoop smallRepos mediumRepos largeRepos maxResults 0 0 0 0

/-- Sort, randomize tie bands, apply diversity tiers
(applyDiversityAndRandomization). -/
def applyDiversityAndRandomization (shuffleG : List ScoredRepo → List ScoredRepo)
    (l : List ScoredRepo) : List ScoredRepo :=
  applyDiversityTiers (randomizeCloseScores shuffleG (sortByFinal l))

/-- Batch scorer with ranking (RepositoryScorer.scoreRepositories). -/
def scoreRepositories (lg : ℚ → ℚ) (now : ℚ)
    (shuffleG : List ScoredRepo → List ScoredRepo)
    (repos : List RepositoryDetails) (skills : List NormalizedSkill)
    (options : ScoringOptions) : List ScoredRepo :=
  let scoredRepos := repos.map (fun repo => ⟨repo, scoreRepository lg now repo skills options⟩)
  applyDiversityAndRandomization shuffleG scoredRepos

/-! ## Claim theorems -/

/-- C8: the stars score is 0 at exactly 0 stars, a flat 1/2 above 20000,
a flat 3/5 above 5000, a flat 7/10 above 1000, and otherwise the minimum
of stars/1000 and 7/10; it never exceeds 7/10 and is non-increasing above
1000 stars. -/
theorem starsScore_tiers :
    (calculateStarsScore 0 = 0)
    ∧ (∀ s : ℕ, s > 20000 → calculateStarsScore s = 1/2)
    ∧ (∀ s : ℕ, 5000 < s → s ≤ 20000 → calculateStarsScore s = 3/5)
    ∧ (∀ s : ℕ, 1000 < s → s ≤ 5000 → calculateStarsScore s = 7/10)
    ∧ (∀ s : ℕ, 0 < s → s ≤ 1000 → calculateStarsScore s = min ((s : ℚ) / 1000) (7/10))
    ∧ (∀ s : ℕ, calculateStarsScore s ≤ 7/10)
    ∧ (∀ s t : ℕ, 1000 < s → s ≤ t → calculateStarsScore t ≤ calculateStarsScore s) := by
  refine ⟨by norm_num [calculateStarsScore], ?_, ?_, ?_, ?_, ?_, ?_⟩
  · intro s hs
    unfold calculateStarsScore
    split_ifs <;> first | rfl | omega
  · intro s h1 h2
    unfold calculateStarsScore
    split_ifs <;> first | rfl | omega
  · intro s h1 h2
    unfold calculateStarsScore
    split_ifs <;> first | rfl | omega
  · intro s h1 h2
    unfold calculateStarsScore
    split_ifs <;> first | rfl | omega
  · intro s
    unfold calculateStarsScore
    split_ifs <;> norm_num
  · intro s t hs hst
    unfold calculateStarsScore
    split_ifs <;> first | omega | norm_num

/-- C8 witness: the tier equations and the non-increase evaluated at
concrete star counts. -/
theorem starsScore_tiers_w :
    calculateStarsScore 25000 = 1/2
    ∧ calculateStarsScore 8000 = 3/5
    ∧ calculateStarsScore 3000 = 7/10
    ∧ calculateStarsScore 700 = min ((700 : ℚ) / 1000) (7/10)
    ∧ calculateStarsScore 30000 ≤ calculateStarsScore 2000 :=
  ⟨starsScore_tiers.2.1 25000 (by norm_num),
   starsScore_tiers.2.2.1 8000 (by norm_num) (by norm_num),
   starsScore_tiers.2.2.2.1 3000 (by norm_num) (by norm_num),
   starsScore_tiers.2.2.2.2.1 700 (by norm_num) (by norm_num),
   starsScore_tiers.2.2.2.2.2.2 2000 30000 (by norm_num) (by norm_num)⟩

/-- A concrete quick-wins repository with zero good first issues, zero
open issues, 100 stars and fresh timestamps. -/
def qwRepo : RepositoryDetails :=
  { id := 1, name := "r", full_name := "o/r", description := none,
    stargazers_count := 100, forks_count := 0, open_issues_count := 0,
    language := none, topics := none, goodFirstIssues := 0,
    created_at := 0, updated_at := 0, pushed_at := 0,
    homepage := none, license := none, enrichedData := none }

/-- Quick-wins scoring options with no overrides. -/
def qwOptions : ScoringOptions := ⟨some .quickWins, none, none, none⟩

/-- C2 counterexample: in quick-wins mode a repository with zero good
first issues and zero open issues incurs only the single 1/2 penalty for
zero open issues: the total mode penalty is 1/2, not the sum of two heavy
penalties, and it does not change when good first issues become nonzero,
so no zero-good-first-issues penalty exists in this mode. -/
theorem quickWins_zero_penalty_cex :
    qwRepo.goodFirstIssues = 0
    ∧ qwRepo.open_issues_count = 0
    ∧ calculateModePenalties 0 qwRepo qwOptions = 1/2
    ∧ calculateModePenalties 0 { qwRepo with goodFirstIssues := 5 } qwOptions = 1/2
    ∧ ¬ (1 ≤ calculateModePenalties 0 qwRepo qwOptions) := by
  with_unfolding_all decide

/-- C2 amended: in quick-wins mode, a repository with zero open issues
(and at least 20 stars, at most 10000 stars, updated within 180 days, so
that no other penalty fires) incurs exactly the single 1/2 penalty for no
contribution opportunities, and the quick-wins mode penalty is wholly
independent of the good-first-issue count; the zero-good-first-issues
penalty exists only in learning mode. -/
theorem quickWins_zero_penalty (now : ℚ) (repo : RepositoryDetails)
    (options : ScoringOptions)
    (hm : options.mode = some .quickWins)
    (hopen : repo.open_issues_count = 0)
    (hs1 : 20 ≤ repo.stargazers_count) (hs2 : repo.stargazers_count ≤ 10000)
    (hfresh : daysSinceUpdate now repo ≤ 180) :
    calculateModePenalties now repo options = 1/2
    ∧ (∀ g : ℕ, calculateModePenalties now { repo with goodFirstIssues := g } options
        = calculateModePenalties now repo options) := by
  obtain ⟨om, ow, mn, mx⟩ := options
  subst hm
  refine ⟨?_, fun g => rfl⟩
  simp only [calculateModePenalties, hopen]
  rw [if_neg (show ¬ repo.stargazers_count < 10 by omega),
      if_neg (show ¬ repo.stargazers_count < 20 by omega),
      if_neg (show ¬ repo.stargazers_count > 10000 by omega),
      if_neg (show ¬ daysSinceUpdate now repo > 180 by linarith)]
  norm_num

/-- C2 witness: the amended statement evaluated on the concrete quick-wins
repository. -/
theorem quickWins_zero_penalty_w :
    calculateModePenalties 0 qwRepo qwOptions = 1/2
    ∧ (∀ g : ℕ, calculateModePenalties 0 { qwRepo with goodFirstIssues := g } qwOptions
        = calculateModePenalties 0 qwRepo qwOptions) :=
  quickWins_zero_penalty 0 qwRepo qwOptions rfl rfl (by norm_num [qwRepo])
    (by norm_num [qwRepo]) (by norm_num [daysSinceUpdate, qwRepo])

/-- C1 counterexample: the token js is an alias of javascript, not a
canonical name, so each occurrence resolves via the alias match at weight
9/10, and normalizeSkills on two copies of js yields one entry of weight
9/5, not 2. -/
theorem js_duplicate_weight_cex :
    (normalizeSkills ["js", "js"]).length = 1
    ∧ (normalizeSkills ["js", "js"]).map NormalizedSkill.weight = [9/5]
    ∧ (∀ ns ∈ normalizeSkills ["js", "js"], ns.weight ≠ 2)
    ∧ lookupSkill "js" = none := by
  with_unfolding_all decide

/-- C1 amended: for the input list js, js the normalizer returns exactly
one entry, and that entry has weight 9/5: both occurrences resolve via the
alias match at 9/10 each (js is an alias of the canonical javascript node,
not a direct match), and the duplicate's weight is added to the existing
entry's weight. -/
theorem js_duplicate_weight :
    normalizeSkills ["js", "js"] =
      [⟨"js", "javascript", "language",
        ["javascript", "js", "ecmascript", "frontend", "web", "browser"], 9/5⟩]
    ∧ normalizeSkill "js" = some ⟨"js", "javascript", "language",
        ["javascript", "js", "ecmascript", "frontend", "web", "browser"], 9/10⟩ := by
  with_unfolding_all decide

/-- Case analysis of normalizeSkill on a nonempty cleaned token: exactly
one of the four resolution tiers applies, first match winning. -/
theorem normalizeSkill_cases (s : String) (h : cleanToken s ≠ "") :
    ∃ ns, normalizeSkill s = some ns ∧
      ((∃ node, lookupSkill (cleanToken s) = some node ∧
          ns = ⟨s, node.name, node.category, node.expanded, 1⟩)
       ∨ (lookupSkill (cleanToken s) = none ∧
          ∃ node, aliasLookup (cleanToken s) = some node ∧
            ns = ⟨s, node.name, node.category, node.expanded, 9/10⟩)
       ∨ (lookupSkill (cleanToken s) = none ∧ aliasLookup (cleanToken s) = none ∧
          ∃ node, findFuzzyMatch (cleanToken s) = some node ∧
            ns = ⟨s, node.name, node.category, node.expanded, 4/5⟩)
       ∨ (lookupSkill (cleanToken s) = none ∧ aliasLookup (cleanToken s) = none ∧
          findFuzzyMatch (cleanToken s) = none ∧
          ns = ⟨s, cleanToken s, "concept", [cleanToken s], 1/2⟩)) := by
  unfold normalizeSkill
  rw [if_neg h]
  cases h1 : lookupSkill (cleanToken s) with
  | some node => exact ⟨_, rfl, Or.inl ⟨node, rfl, rfl⟩⟩
  | none =>
    cases h2 : aliasLookup (cleanToken s) with
    | some node => exact ⟨_, rfl, Or.inr (Or.inl ⟨rfl, node, rfl, rfl⟩)⟩
    | none =>
      cases h3 : findFuzzyMatch (cleanToken s) with
      | some node => exact ⟨_, rfl, Or.inr (Or.inr (Or.inl ⟨rfl, rfl, node, rfl, rfl⟩))⟩
      | none => exact ⟨_, rfl, Or.inr (Or.inr (Or.inr ⟨rfl, rfl, rfl, rfl⟩))⟩

/-- C7: single-token resolution is deterministic and first-match-wins: a
direct canonical-name match yields weight 1, else an alias match yields
9/10, else a fuzzy-variation match yields 4/5, else the fallback yields
1/2 with the cleaned token itself as the normalized name; and the alias
token reactjs normalizes to react at weight 9/10. -/
theorem normalizeSkill_resolution_order :
    (∀ s : String, cleanToken s ≠ "" → ∃ ns, normalizeSkill s = some ns ∧
      ((∃ node, lookupSkill (cleanToken s) = some node ∧
          ns = ⟨s, node.name, node.category, node.expanded, 1⟩)
       ∨ (lookupSkill (cleanToken s) = none ∧
          ∃ node, aliasLookup (cleanToken s) = some node ∧
            ns = ⟨s, node.name, node.category, node.expanded, 9/10⟩)
       ∨ (lookupSkill (cleanToken s) = none ∧ aliasLookup (cleanToken s) = none ∧
          ∃ node, findFuzzyMatch (cleanToken s) = some node ∧
            ns = ⟨s, node.name, node.category, node.expanded, 4/5⟩)
       ∨ (lookupSkill (cleanToken s) = none ∧ aliasLookup (cleanToken s) = none ∧
          findFuzzyMatch (cleanToken s) = none ∧
          ns = ⟨s, cleanToken s, "concept", [cleanToken s], 1/2⟩)))
    ∧ normalizeSkills ["reactjs"] =
        [⟨"reactjs", "react", "framework",
          ["react", "reactjs", "javascript", "js", "frontend", "web", "ui",
           "component", "jsx", "hooks"], 9/10⟩] := by
  exact ⟨fun s h => normalizeSkill_cases s h, by with_unfolding_all decide⟩

/-- C7 witness: the resolution disjunction evaluated at the concrete token
reactjs, which lands in the alias branch. -/
theorem normalizeSkill_resolution_order_w :
    ∃ ns, normalizeSkill "reactjs" = some ns ∧
      ((∃ node, lookupSkill (cleanToken "reactjs") = some node ∧
          ns = ⟨"reactjs", node.name, node.category, node.expanded, 1⟩)
       ∨ (lookupSkill (cleanToken "reactjs") = none ∧
          ∃ node, aliasLookup (cleanToken "reactjs") = some node ∧
            ns = ⟨"reactjs", node.name, node.category, node.expanded, 9/10⟩)
       ∨ (lookupSkill (cleanToken "reactjs") = none ∧
          aliasLookup (cleanToken "reactjs") = none ∧
          ∃ node, findFuzzyMatch (cleanToken "reactjs") = some node ∧
            ns = ⟨"reactjs", node.name, node.category, node.expanded, 4/5⟩)
       ∨ (lookupSkill (cleanToken "reactjs") = none ∧
          aliasLookup (cleanToken "reactjs") = none ∧
          findFuzzyMatch (cleanToken "reactjs") = none ∧
          ns = ⟨"reactjs", cleanToken "reactjs", "concept",
                [cleanToken "reactjs"], 1/2⟩)) :=
  normalizeSkill_resolution_order.1 "reactjs" (by with_unfolding_all decide)

/-- Every successfully resolved token carries a positive weight (one of
1, 9/10, 4/5, 1/2). -/
theorem normalizeSkill_weight_pos (s : String) (ns : NormalizedSkill)
    (h : normalizeSkill s = some ns) : 0 < ns.weight := by
  by_cases hc : cleanToken s = ""
  · rw [normalizeSkill, if_pos hc] at h
    cases h
  · obtain ⟨ns', hns', hd⟩ := normalizeSkill_cases s hc
    rw [hns', Option.some_inj] at h
    subst h
    rcases hd with ⟨n, _, rfl⟩ | ⟨_, n, _, rfl⟩ | ⟨_, _, n, _, rfl⟩ | ⟨_, _, _, rfl⟩ <;>
      norm_num

/-- Updating only the weight leaves the deduplication key unchanged, so
insertSkill preserves the key list when the key is already present. -/
theorem insertSkill_keys_of_mem (acc : List NormalizedSkill) (ns : NormalizedSkill)
    (hmem : acc.any (fun e => decide (normKey e = normKey ns))) :
    (insertSkill acc ns).map normKey = acc.map normKey := by
  rw [insertSkill, if_pos hmem, List.map_map]
  apply List.map_congr_left
  intro e _
  by_cases h : normKey e = normKey ns
  · simp only [Function.comp_apply, if_pos h]
    rfl
  · simp only [Function.comp_apply, if_neg h]

/-- insertSkill preserves distinctness of keys and positivity of weights. -/
theorem insertSkill_inv (acc : List NormalizedSkill) (ns : NormalizedSkill)
    (hd : (acc.map normKey).Nodup) (hw : ∀ e ∈ acc, 0 < e.weight)
    (hn : 0 < ns.weight) :
    ((insertSkill acc ns).map normKey).Nodup ∧ ∀ e ∈ insertSkill acc ns, 0 < e.weight := by
  by_cases hmem : acc.any (fun e => decide (normKey e = normKey ns))
  · refine ⟨by rw [insertSkill_keys_of_mem acc ns hmem]; exact hd, ?_⟩
    rw [insertSkill, if_pos hmem]
    intro e he
    rw [List.mem_map] at he
    obtain ⟨a, ha, rfl⟩ := he
    by_cases h : normKey a = normKey ns
    · simp only [if_pos h]
      exact add_pos (hw a ha) hn
    · simp only [if_neg h]
      exact hw a ha
  · rw [insertSkill, if_neg hmem]
    constructor
    · rw [List.map_append, List.nodup_append]
      refine ⟨hd, by simp, ?_⟩
      intro k hk
      simp only [List.map_cons, List.map_nil, List.mem_cons, List.not_mem_nil,
        or_false]
      rw [List.mem_map] at hk
      obtain ⟨a, ha, rfl⟩ := hk
      intro hEq
      apply hmem
      rw [List.any_eq_true]
      exact ⟨a, ha, by simp [hEq]⟩
    · intro e he
      rw [List.mem_append] at he
      rcases he with h | h
      · exact hw e h
      · rw [List.mem_singleton] at h
        subst h
        exact hn

/-- The fold underlying normalizeSkills keeps keys distinct and weights
positive from any accumulator already satisfying both. -/
theorem normalizeSkills_fold_inv (skills : List String) :
    ∀ acc : List NormalizedSkill, (acc.map normKey).Nodup → (∀ e ∈ acc, 0 < e.weight) →
      ((skills.foldl normalizeStep acc).map normKey).Nodup
      ∧ ∀ e ∈ skills.foldl normalizeStep acc, 0 < e.weight := by
  induction skills with
  | nil => exact fun acc h1 h2 => ⟨h1, h2⟩
  | cons s rest ih =>
    intro acc h1 h2
    rw [List.foldl_cons]
    cases hs : normalizeSkill s with
    | none =>
      have hstep : normalizeStep acc s = acc := by rw [normalizeStep, hs]
      rw [hstep]
      exact ih acc h1 h2
    | some ns =>
      have hstep : normalizeStep acc s = insertSkill acc ns := by rw [normalizeStep, hs]
      rw [hstep]
      obtain ⟨hd, hw⟩ := insertSkill_inv acc ns h1 h2 (normalizeSkill_weight_pos s ns hs)
      exact ih _ hd hw

/-- Appending one token folds it once into the previous result. -/
theorem normalizeSkills_append (skills : List String) (x : String) :
    normalizeSkills (skills ++ [x]) = normalizeStep (normalizeSkills skills) x := by
  rw [normalizeSkills, normalizeSkills, List.foldl_append, List.foldl_cons, List.foldl_nil]

/-- C6: for every input skill list the output has pairwise distinct
case-insensitive normalized keys and strictly positive weights; a later
token resolving to an already-seen key creates no new entry but has its
weight added in place to the matching entry; and weights can exceed 1, as
the duplicated alias js shows. -/
theorem normalizeSkills_dedup :
    (∀ skills : List String,
      ((normalizeSkills skills).map normKey).Nodup
      ∧ (∀ e ∈ normalizeSkills skills, 0 < e.weight))
    ∧ (∀ (skills : List String) (x : String) (ns : NormalizedSkill),
      normalizeSkill x = some ns →
      normKey ns ∈ (normalizeSkills skills).map normKey →
      (normalizeSkills (skills ++ [x])).length = (normalizeSkills skills).length
      ∧ normalizeSkills (skills ++ [x]) = (normalizeSkills skills).map
          (fun e => if normKey e = normKey ns then
            { e with weight := e.weight + ns.weight } else e))
    ∧ (∃ e ∈ normalizeSkills ["js", "js"], 1 < e.weight) := by
  refine ⟨?_, ?_, ?_⟩
  · intro skills
    exact normalizeSkills_fold_inv skills [] (by simp) (by simp)
  · intro skills x ns hx hk
    have hmem : (normalizeSkills skills).any (fun e => decide (normKey e = normKey ns)) := by
      rw [List.mem_map] at hk
      obtain ⟨a, ha, hkey⟩ := hk
      rw [List.any_eq_true]
      exact ⟨a, ha, by simp [hkey]⟩
    have hstep : normalizeStep (normalizeSkills skills) x
        = insertSkill (normalizeSkills skills) ns := by rw [normalizeStep, hx]
    rw [normalizeSkills_append, hstep, insertSkill, if_pos hmem]
    exact ⟨by rw [List.length_map], rfl⟩
  · with_unfolding_all decide

/-- The single normalized entry produced by the token js. -/
def jsNS : NormalizedSkill :=
  ⟨"js", "javascript", "language",
   ["javascript", "js", "ecmascript", "frontend", "web", "browser"], 9/10⟩

/-- C6 witness: the in-place weight accumulation evaluated on the concrete
duplicate list js, js. -/
theorem normalizeSkills_dedup_w :
    (normalizeSkills (["js"] ++ ["js"])).length = (normalizeSkills ["js"]).length
    ∧ normalizeSkills (["js"] ++ ["js"]) = (normalizeSkills ["js"]).map
        (fun e => if normKey e = normKey jsNS then
          { e with weight := e.weight + jsNS.weight } else e) :=
  normalizeSkills_dedup.2.1 ["js"] "js" jsNS (by with_unfolding_all decide)
    (by with_unfolding_all decide)

/-- Every element emitted by the tier loop comes from one of the three
tier lists. -/
theorem tierLoop_mem (S M L : List ScoredRepo) :
    ∀ (fuel i si mi li : ℕ) (x : ScoredRepo),
      x ∈ tierLoop S M L fuel i si mi li → x ∈ S ∨ x ∈ M ∨ x ∈ L := by
  intro fuel
  induction fuel with
  | zero =>
    intro i si mi li x hx
    simp [tierLoop] at hx
  | succ n ih =>
    intro i si mi li x hx
    rw [tierLoop] at hx
    split_ifs at hx <;>
      first
      | exact absurd hx (List.not_mem_nil x)
      | (rcases List.mem_append.mp hx with h | h
         · first
           | exact Or.inl (List.getElem?_mem (Option.mem_def.mp (Option.mem_toList.mp h)))
           | exact Or.inr (Or.inl (List.getElem?_mem (Option.mem_def.mp (Option.mem_toList.mp h))))
           | exact Or.inr (Or.inr (List.getElem?_mem (Option.mem_def.mp (Option.mem_toList.mp h))))
         · exact ih _ _ _ _ x h)

/-- The tier loop emits exactly as many entries as its fuel allows or as
remain across the three tiers, whichever is smaller. -/
theorem tierLoop_length (S M L : List ScoredRepo) :
    ∀ (fuel i si mi li : ℕ),
      (tierLoop S M L fuel i si mi li).length
        = min fuel ((S.length - si) + ((M.length - mi) + (L.length - li))) := by
  intro fuel
  induction fuel with
  | zero => simp [tierLoop]
  | succ n ih =>
    intro i si mi li
    rw [tierLoop]
    split_ifs with h1 h2 h3 h4 h5 h6
    · rw [List.length_append, List.getElem?_eq_getElem h1.2]
      simp only [Option.toList_some, List.length_singleton]
      rw [ih]
      omega
    · rw [List.length_append, List.getElem?_eq_getElem h2.2]
      simp only [Option.toList_some, List.length_singleton]
      rw [ih]
      omega
    · rw [List.length_append, List.getElem?_eq_getElem h3.2]
      simp only [Option.toList_some, List.length_singleton]
      rw [ih]
      omega
    · rw [List.length_append, List.getElem?_eq_getElem h4]
      simp only [Option.toList_some, List.length_singleton]
      rw [ih]
      omega
    · rw [List.length_append, List.getElem?_eq_getElem h5]
      simp only [Option.toList_some, List.length_singleton]
      rw [ih]
      omega
    · rw [List.length_append, List.getElem?_eq_getElem h6]
      simp only [Option.toList_some, List.length_singleton]
      rw [ih]
      omega
    · simp only [List.length_nil]
      omega

/-- With the medium and large tiers empty, the loop simply streams the
small tier in order. -/
theorem tierLoop_small_only (S : List ScoredRepo) :
    ∀ (fuel i si : ℕ), tierLoop S [] [] fuel i si 0 0 = (S.drop si).take fuel := by
  intro fuel
  induction fuel with
  | zero => simp [tierLoop]
  | succ n ih =>
    intro i si
    rw [tierLoop]
    simp only [List.length_nil]
    by_cases h : si < S.length
    · have hdrop : S.drop si = S[si] :: S.drop (si + 1) := List.drop_eq_getElem_cons h
      have hpush : (S[si]?).toList ++ tierLoop S [] [] n (i + 1) (si + 1) 0 0
          = (S.drop si).take (n + 1) := by
        rw [List.getElem?_eq_getElem h, ih, hdrop, List.take_succ_cons]
        simp only [Option.toList_some, List.singleton_append]
      split_ifs <;> first | omega | exact hpush
    · have hdrop : S.drop si = [] := List.drop_eq_nil_of_le (by omega)
      rw [hdrop]
      split_ifs <;> first | omega | simp

/-- C3: the ranked output of scoreRepositories never contains a repository
with fewer than 50 stars: the diversity tiers cover only repositories with
at least 50 stars, so anything below that bound is dropped regardless of
its score, for every clock value, log model, shuffle, batch, skill list
and option set. -/
theorem scoreRepositories_min_stars (lg : ℚ → ℚ) (now : ℚ)
    (shuffleG : List ScoredRepo → List ScoredRepo)
    (repos : List RepositoryDetails) (skills : List NormalizedSkill)
    (options : ScoringOptions) (x : ScoredRepo)
    (hx : x ∈ scoreRepositories lg now shuffleG repos skills options) :
    50 ≤ x.repo.stargazers_count := by
  simp only [scoreRepositories, applyDiversityAndRandomization,
    applyDiversityTiers] at hx
  rcases tierLoop_mem _ _ _ _ _ _ _ _ x hx with h | h | h
  · have hp := (List.mem_filter.mp h).2
    rw [isSmallTier] at hp
    exact (of_decide_eq_true hp).1
  · have hp := (List.mem_filter.mp h).2
    rw [isMediumTier] at hp
    have := (of_decide_eq_true hp).1
    omega
  · have hp := (List.mem_filter.mp h).2
    rw [isLargeTier] at hp
    have := of_decide_eq_true hp
    omega

/-- A concrete small-tier repository with 60 stars. -/
def smallRepo : RepositoryDetails :=
  { id := 2, name := "s", full_name := "o/s", description := none,
    stargazers_count := 60, forks_count := 0, open_issues_count := 0,
    language := none, topics := none, goodFirstIssues := 0,
    created_at := 0, updated_at := 0, pushed_at := 0,
    homepage := none, license := none, enrichedData := none }

/-- The zero stand-in for Math.log10 used by concrete evaluations. -/
def lgZero : ℚ → ℚ := fun _ => 0

set_option maxRecDepth 4000 in
/-- C3 witness: the 50-star bound instantiated on a concrete singleton
batch; the scored entry for the 60-star repository is a member of the
pipeline output by direct evaluation. -/
theorem scoreRepositories_min_stars_w : 50 ≤ smallRepo.stargazers_count :=
  scoreRepositories_min_stars lgZero 0 id [smallRepo] [] ⟨none, none, none, none⟩
    ⟨smallRepo, scoreRepository lgZero 0 smallRepo [] ⟨none, none, none, none⟩⟩
    (by with_unfolding_all exact List.mem_singleton_self _)

/-- C9: the ranked output is capped at 50 entries for every input; more
precisely the tier emission produces exactly min(min(n,50), number of
entries belonging to some tier) results, and when only the small tier is
inhabited the loop (pattern steps plus smallest-first fallback) streams
the small tier in order up to the cap. -/
theorem scoreRepositories_cap :
    (∀ (lg : ℚ → ℚ) (now : ℚ) (shuffleG : List ScoredRepo → List ScoredRepo)
      (repos : List RepositoryDetails) (skills : List NormalizedSkill)
      (options : ScoringOptions),
      (scoreRepositories lg now shuffleG repos skills options).length ≤ 50)
    ∧ (∀ l : List ScoredRepo, (applyDiversityTiers l).length
        = min (min l.length 50)
            ((l.filter isSmallTier).length + ((l.filter isMediumTier).length
              + (l.filter isLargeTier).length)))
    ∧ (∀ l : List ScoredRepo, l.filter isMediumTier = [] → l.filter isLargeTier = [] →
        applyDiversityTiers l = (l.filter isSmallTier).take (min l.length 50)) := by
  have hlen : ∀ l : List ScoredRepo, (applyDiversityTiers l).length
      = min (min l.length 50)
          ((l.filter isSmallTier).length + ((l.filter isMediumTier).length
            + (l.filter isLargeTier).length)) := by
    intro l
    simp only [applyDiversityTiers]
    rw [tierLoop_length]
    omega
  refine ⟨?_, hlen, ?_⟩
  · intro lg now shuffleG repos skills options
    simp only [scoreRepositories, applyDiversityAndRandomization]
    rw [hlen]
    omega
  · intro l hM hL
    simp only [applyDiversityTiers, hM, hL]
    rw [tierLoop_small_only]
    simp

/-- A concrete scored entry in the small tier. -/
def sr60 : ScoredRepo := ⟨smallRepo, default⟩

/-- C9 witness: the small-tier-only streaming equation evaluated on a
concrete singleton list. -/
theorem scoreRepositories_cap_w :
    applyDiversityTiers [sr60]
      = (([sr60] : List ScoredRepo).filter isSmallTier).take
          (min ([sr60] : List ScoredRepo).length 50) :=
  scoreRepositories_cap.2.2 [sr60] (by with_unfolding_all decide)
    (by with_unfolding_all decide)

/-- The clamp in applyModeBonuses makes its result nonnegative whatever
the base, bonus and penalty are. -/
theorem applyModeBonuses_nonneg (lg : ℚ → ℚ) (now b : ℚ) (repo : RepositoryDetails)
    (options : ScoringOptions) : 0 ≤ applyModeBonuses lg now b repo options := by
  simp only [applyModeBonuses]
  exact le_max_left _ _

/-- The clamp in applyModeBonuses caps its result at 1 whatever the base,
bonus and penalty are. -/
theorem applyModeBonuses_le_one (lg : ℚ → ℚ) (now b : ℚ) (repo : RepositoryDetails)
    (options : ScoringOptions) : applyModeBonuses lg now b repo options ≤ 1 := by
  simp only [applyModeBonuses]
  exact max_le (by norm_num) (min_le_right _ _)

/-- The freshness multiplier sends the unit interval into the interval
from 0 to 6/5. -/
theorem applyFreshnessBoost_bounds (now b : ℚ) (repo : RepositoryDetails)
    (h0 : 0 ≤ b) (h1 : b ≤ 1) :
    0 ≤ applyFreshnessBoost now b repo ∧ applyFreshnessBoost now b repo ≤ 6/5 := by
  rw [applyFreshnessBoost]
  split_ifs <;> constructor <;> linarith

/-- The final score unfolded: the clamped bonus-and-penalty adjustment of
the weighted dimension sum, then the freshness multiplier. -/
theorem scoreRepository_final_eq (lg : ℚ → ℚ) (now : ℚ) (repo : RepositoryDetails)
    (skills : List NormalizedSkill) (options : ScoringOptions) :
    (scoreRepository lg now repo skills options).final
      = applyFreshnessBoost now
          (applyModeBonuses lg now
            (calculateRelevanceScore repo skills options
              * (mergeWeights (getModeWeights (options.mode.getD .profileBuilding))
                  options.weights).relevance
             + calculateQualityScore now repo options
              * (mergeWeights (getModeWeights (options.mode.getD .profileBuilding))
                  options.weights).quality
             + calculateOpportunityScore repo options
              * (mergeWeights (getModeWeights (options.mode.getD .profileBuilding))
                  options.weights).opportunity)
            repo options)
          repo := rfl

/-- The final score always lies between 0 and 6/5, with no assumption at
all on the repository data, the options or the weight overrides. -/
theorem scoreRepository_final_bounds (lg : ℚ → ℚ) (now : ℚ) (repo : RepositoryDetails)
    (skills : List NormalizedSkill) (options : ScoringOptions) :
    0 ≤ (scoreRepository lg now repo skills options).final
    ∧ (scoreRepository lg now repo skills options).final ≤ 6/5 := by
  rw [scoreRepository_final_eq]
  exact applyFreshnessBoost_bounds now _ repo
    (applyModeBonuses_nonneg lg now _ repo options)
    (applyModeBonuses_le_one lg now _ repo options)

/-- C10: every enriched-data scorer returns 0 when its required block is
absent (whether the whole bundle or the individual analysis block is
missing); the description, topic and language matchers return 0 on
missing optional inputs; the documentation score degrades to 0 with all
its inputs absent; and the composite scorer still produces a score, whose
final value stays within 0 and 6/5, with no validity assumption. -/
theorem missing_data_defaults (lg : ℚ → ℚ) (now : ℚ) (repo : RepositoryDetails)
    (skills : List NormalizedSkill) (options : ScoringOptions) :
    (repo.enrichedData = none →
      calculateCommitActivityScore repo = 0
      ∧ calculateIssueResponseScore repo = 0
      ∧ calculateDependencyHealthScore repo = 0
      ∧ calculateReadmeQualityScore repo = 0
      ∧ calculateSkillMatchScore repo skills = 0)
    ∧ (∀ ed, repo.enrichedData = some ed →
      (ed.commitAnalysis = none → calculateCommitActivityScore repo = 0)
      ∧ (ed.issueAnalysis = none → calculateIssueResponseScore repo = 0)
      ∧ (ed.dependencyAnalysis = none → calculateDependencyHealthScore repo = 0)
      ∧ (ed.readmeAnalysis = none →
          calculateReadmeQualityScore repo = 0
          ∧ calculateSkillMatchScore repo skills = 0))
    ∧ (repo.description = none → calculateReadmeMatch repo skills = 0)
    ∧ (repo.topics = none → calculateTopicMatch repo skills = 0)
    ∧ (repo.language = none → calculateLanguageMatch repo skills = 0)
    ∧ (repo.description = none → repo.homepage = none → repo.license = none →
        repo.topics = none → repo.goodFirstIssues = 0 →
        calculateDocumentationScore repo = 0)
    ∧ (0 ≤ (scoreRepository lg now repo skills options).final
       ∧ (scoreRepository lg now repo skills options).final ≤ 6/5) := by
  refine ⟨?_, ?_, ?_, ?_, ?_, ?_, scoreRepository_final_bounds lg now repo skills options⟩
  · intro h
    refine ⟨?_, ?_, ?_, ?_, ?_⟩ <;>
      simp [calculateCommitActivityScore, calculateIssueResponseScore,
        calculateDependencyHealthScore, calculateReadmeQualityScore,
        calculateSkillMatchScore, h]
  · intro ed hed
    refine ⟨?_, ?_, ?_, ?_⟩ <;> intro hb
    · simp [calculateCommitActivityScore, hed, hb]
    · simp [calculateIssueResponseScore, hed, hb]
    · simp [calculateDependencyHealthScore, hed, hb]
    · exact ⟨by simp [calculateReadmeQualityScore, hed, hb],
        by simp [calculateSkillMatchScore, hed, hb]⟩
  · intro h
    unfold calculateReadmeMatch
    rw [h]
    rw [show optStr none = none from rfl]
  · intro h
    unfold calculateTopicMatch
    rw [h]
  · intro h
    unfold calculateLanguageMatch
    rw [h]
    rw [show optStr none = none from rfl]
  · intro h1 h2 h3 h4 h5
    unfold calculateDocumentationScore
    rw [h5]
    simp only [descLongerThan, licenseNotOther, hasTopics, optStr, h1, h2, h3, h4]
    norm_num

/-- A fully bare repository: no description, no topics, no homepage, no
license, no language, no enrichment. -/
def bareRepo : RepositoryDetails :=
  { id := 3, name := "b", full_name := "o/b", description := none,
    stargazers_count := 0, forks_count := 0, open_issues_count := 0,
    language := none, topics := none, goodFirstIssues := 0,
    created_at := 0, updated_at := 0, pushed_at := 0,
    homepage := none, license := none, enrichedData := none }

/-- C10 witness: the degradation defaults and final-score bounds evaluated
on the fully bare repository. -/
theorem missing_data_defaults_w :
    (bareRepo.enrichedData = none →
      calculateCommitActivityScore bareRepo = 0
      ∧ calculateIssueResponseScore bareRepo = 0
      ∧ calculateDependencyHealthScore bareRepo = 0
      ∧ calculateReadmeQualityScore bareRepo = 0
      ∧ calculateSkillMatchScore bareRepo [] = 0)
    ∧ (∀ ed, bareRepo.enrichedData = some ed →
      (ed.commitAnalysis = none → calculateCommitActivityScore bareRepo = 0)
      ∧ (ed.issueAnalysis = none → calculateIssueResponseScore bareRepo = 0)
      ∧ (ed.dependencyAnalysis = none → calculateDependencyHealthScore bareRepo = 0)
      ∧ (ed.readmeAnalysis = none →
          calculateReadmeQualityScore bareRepo = 0
          ∧ calculateSkillMatchScore bareRepo [] = 0))
    ∧ (bareRepo.description = none → calculateReadmeMatch bareRepo [] = 0)
    ∧ (bareRepo.topics = none → calculateTopicMatch bareRepo [] = 0)
    ∧ (bareRepo.language = none → calculateLanguageMatch bareRepo [] = 0)
    ∧ (bareRepo.description = none → bareRepo.homepage = none →
        bareRepo.license = none → bareRepo.topics = none →
        bareRepo.goodFirstIssues = 0 → calculateDocumentationScore bareRepo = 0)
    ∧ (0 ≤ (scoreRepository lgZero 0 bareRepo [] ⟨none, none, none, none⟩).final
       ∧ (scoreRepository lgZero 0 bareRepo [] ⟨none, none, none, none⟩).final ≤ 6/5) :=
  missing_data_defaults lgZero 0 bareRepo [] ⟨none, none, none, none⟩

/-! ## Range lemmas for the breakdown scorers -/

/-- Validity of the enrichment inputs: every consumed sub-signal that the
enricher produces as a nonnegative quantity is nonnegative. The enricher
caps each of these below at 0 by construction. -/
def ValidRepo (repo : RepositoryDetails) : Prop :=
  ∀ ed, repo.enrichedData = some ed →
    (∀ ca, ed.commitAnalysis = some ca →
      0 ≤ ca.frequency ∧ 0 ≤ ca.contributorDistribution
      ∧ 0 ≤ ca.commitMessageQuality ∧ 0 ≤ ca.branchActivity)
    ∧ (∀ ia, ed.issueAnalysis = some ia →
      0 ≤ ia.resolutionRate ∧ 0 ≤ ia.maintainerActivity
      ∧ 0 ≤ ia.communityEngagement ∧ 0 ≤ ia.issueQuality ∧ 0 ≤ ia.labelUsage)
    ∧ (∀ da, ed.dependencyAnalysis = some da →
      0 ≤ da.healthScore ∧ 0 ≤ da.securityScore
      ∧ 0 ≤ da.updateFrequency ∧ 0 ≤ da.licenseCompatibility)
    ∧ (∀ ra, ed.readmeAnalysis = some ra →
      0 ≤ ra.contentQuality ∧ 0 ≤ ra.learningResources)

theorem languageMatch_bounds (repo : RepositoryDetails) (skills : List NormalizedSkill) :
    0 ≤ calculateLanguageMatch repo skills ∧ calculateLanguageMatch repo skills ≤ 1 := by
  unfold calculateLanguageMatch
  cases optStr repo.language <;> cases skills <;> dsimp only <;>
    first
    | exact ⟨le_refl 0, by norm_num⟩
    | (split_ifs <;> norm_num)

theorem topicMatch_bounds (repo : RepositoryDetails) (skills : List NormalizedSkill) :
    0 ≤ calculateTopicMatch repo skills ∧ calculateTopicMatch repo skills ≤ 1 := by
  unfold calculateTopicMatch
  cases htop : repo.topics with
  | none => cases skills <;> exact ⟨le_refl 0, by norm_num⟩
  | some ts =>
    cases ts <;> cases skills <;> dsimp only <;>
      first
      | exact ⟨le_refl 0, by norm_num⟩
      | exact ⟨le_min (by positivity) (by norm_num), min_le_right _ _⟩

theorem readmeMatch_bounds (repo : RepositoryDetails) (skills : List NormalizedSkill) :
    0 ≤ calculateReadmeMatch repo skills ∧ calculateReadmeMatch repo skills ≤ 1 := by
  unfold calculateReadmeMatch
  cases optStr repo.description <;> cases skills <;> dsimp only <;>
    first
    | exact ⟨le_refl 0, by norm_num⟩
    | exact ⟨le_min (by positivity) (by norm_num), min_le_right _ _⟩

theorem starsScore_bounds (stars : ℕ) :
    0 ≤ calculateStarsScore stars ∧ calculateStarsScore stars ≤ 1 := by
  unfold calculateStarsScore
  split_ifs with h1 h2 h3 h4
  · norm_num
  · norm_num
  · norm_num
  · norm_num
  · exact ⟨le_min (by positivity) (by norm_num),
      (min_le_right _ _).trans (by norm_num)⟩

theorem activityScore_bounds (now : ℚ) (repo : RepositoryDetails) :
    0 ≤ calculateActivityScore now repo ∧ calculateActivityScore now repo ≤ 1 := by
  unfold calculateActivityScore
  dsimp only
  split_ifs <;> constructor
  all_goals first
    | exact min_le_right _ _
    | exact le_min (by norm_num) (by norm_num)

theorem documentationScore_bounds (repo : RepositoryDetails) :
    0 ≤ calculateDocumentationScore repo ∧ calculateDocumentationScore repo ≤ 1 := by
  unfold calculateDocumentationScore
  dsimp only
  split_ifs <;> constructor
  all_goals first
    | exact min_le_right _ _
    | exact le_min (by norm_num) (by norm_num)

theorem issueScore_bounds (repo : RepositoryDetails) :
    0 ≤ calculateIssueScore repo ∧ calculateIssueScore repo ≤ 1 := by
  unfold calculateIssueScore
  have hb : (0 : ℚ) ≤ min ((repo.open_issues_count : ℚ) / 20) (1/10) :=
    le_min (by positivity) (by norm_num)
  dsimp only
  split_ifs with h0 h1 h2 h3 h4
  · norm_num
  all_goals constructor
  all_goals first
    | exact min_le_right _ _
    | exact le_min (by linarith) (by norm_num)

theorem contributorScore_bounds (repo : RepositoryDetails) :
    0 ≤ calculateContributorScore repo ∧ calculateContributorScore repo ≤ 1 := by
  unfold calculateContributorScore
  have h1 : (0 : ℚ) ≤ min ((repo.forks_count : ℚ) / 100) 1 :=
    le_min (by positivity) (by norm_num)
  have h2 : (0 : ℚ) ≤ min ((repo.stargazers_count : ℚ) / 1000) 1 :=
    le_min (by positivity) (by norm_num)
  have h3 : min ((repo.forks_count : ℚ) / 100) 1 ≤ 1 := min_le_right _ _
  have h4 : min ((repo.stargazers_count : ℚ) / 1000) 1 ≤ 1 := min_le_right _ _
  constructor <;> nlinarith

theorem commitActivityScore_bounds (repo : RepositoryDetails) (hv : ValidRepo repo) :
    0 ≤ calculateCommitActivityScore repo ∧ calculateCommitActivityScore repo ≤ 1 := by
  unfold calculateCommitActivityScore
  cases hed : repo.enrichedData with
  | none => norm_num
  | some ed =>
    dsimp only
    cases hca : ed.commitAnalysis with
    | none => norm_num
    | some ca =>
      dsimp only
      obtain ⟨hf, hcd, hq, hb⟩ := (hv ed hed).1 ca hca
      have h1 : (0 : ℚ) ≤ min (ca.frequency / 5) 1 := le_min (by positivity) (by norm_num)
      have h2 : (0 : ℚ) ≤ max 0 (1 - ca.recency / 30) := le_max_left _ _
      exact ⟨le_min (by linarith) (by norm_num), min_le_right _ _⟩

theorem issueResponseScore_bounds (repo : RepositoryDetails) (hv : ValidRepo repo) :
    0 ≤ calculateIssueResponseScore repo ∧ calculateIssueResponseScore repo ≤ 1 := by
  unfold calculateIssueResponseScore
  cases hed : repo.enrichedData with
  | none => norm_num
  | some ed =>
    dsimp only
    cases hia : ed.issueAnalysis with
    | none => norm_num
    | some ia =>
      dsimp only
      obtain ⟨hr, hm, hc, hq, hl⟩ := ((hv ed hed).2.1) ia hia
      have h1 : (0 : ℚ) ≤ max 0 (1 - ia.responseTime / 24) := le_max_left _ _
      exact ⟨le_min (by linarith) (by norm_num), min_le_right _ _⟩

theorem dependencyHealthScore_bounds (repo : RepositoryDetails) (hv : ValidRepo repo) :
    0 ≤ calculateDependencyHealthScore repo ∧ calculateDependencyHealthScore repo ≤ 1 := by
  unfold calculateDependencyHealthScore
  cases hed : repo.enrichedData with
  | none => norm_num
  | some ed =>
    dsimp only
    cases hda : ed.dependencyAnalysis with
    | none => norm_num
    | some da =>
      dsimp only
      obtain ⟨hh, hs, hu, hl⟩ := ((hv ed hed).2.2.1) da hda
      have h1 : (0 : ℚ) ≤ max 0 (1 - (if da.dependencyCount > 0 then
          da.outdatedDependencies / da.dependencyCount else 0)) := le_max_left _ _
      exact ⟨le_min (by linarith) (by norm_num), min_le_right _ _⟩

theorem readmeQualityScore_bounds (repo : RepositoryDetails) (hv : ValidRepo repo) :
    0 ≤ calculateReadmeQualityScore repo ∧ calculateReadmeQualityScore repo ≤ 1 := by
  unfold calculateReadmeQualityScore
  cases hed : repo.enrichedData with
  | none => norm_num
  | some ed =>
    dsimp only
    cases hra : ed.readmeAnalysis with
    | none => norm_num
    | some ra =>
      dsimp only
      obtain ⟨hc, hl⟩ := ((hv ed hed).2.2.2) ra hra
      have h1 : (0 : ℚ) ≤ min (ra.learningResources / 5) 1 := le_min (by positivity) (by norm_num)
      have h2 : (0 : ℚ) ≤ max 0 (1 - ra.setupDifficulty) := le_max_left _ _
      exact ⟨le_min (by linarith) (by norm_num), min_le_right _ _⟩

theorem skillMatchScore_bounds (repo : RepositoryDetails) (skills : List NormalizedSkill) :
    0 ≤ calculateSkillMatchScore repo skills ∧ calculateSkillMatchScore repo skills ≤ 1 := by
  unfold calculateSkillMatchScore
  cases repo.enrichedData with
  | none => norm_num
  | some ed =>
    dsimp only
    cases hra2 : ed.readmeAnalysis with
    | none => norm_num
    | some ra =>
      cases skills with
      | nil => norm_num
      | cons a l =>
        dsimp only
        split_ifs with h
        · exact ⟨le_min (by positivity) (by norm_num), min_le_right _ _⟩
        · norm_num

theorem relevanceScore_bounds (repo : RepositoryDetails) (skills : List NormalizedSkill)
    (options : ScoringOptions) :
    0 ≤ calculateRelevanceScore repo skills options
    ∧ calculateRelevanceScore repo skills options ≤ 1 := by
  obtain ⟨l0, l1⟩ := languageMatch_bounds repo skills
  obtain ⟨t0, t1⟩ := topicMatch_bounds repo skills
  obtain ⟨r0, r1⟩ := readmeMatch_bounds repo skills
  obtain ⟨s0, s1⟩ := skillMatchScore_bounds repo skills
  unfold calculateRelevanceScore
  obtain ⟨om, ow, mn, mx⟩ := options
  cases om with
  | none => dsimp only; constructor <;> linarith
  | some m => cases m <;> (dsimp only; constructor <;> linarith)

theorem qualityScore_bounds (now : ℚ) (repo : RepositoryDetails)
    (options : ScoringOptions) (hv : ValidRepo repo) :
    0 ≤ calculateQualityScore now repo options
    ∧ calculateQualityScore now repo options ≤ 1 := by
  obtain ⟨a0, a1⟩ := starsScore_bounds repo.stargazers_count
  obtain ⟨b0, b1⟩ := activityScore_bounds now repo
  obtain ⟨c0, c1⟩ := documentationScore_bounds repo
  obtain ⟨d0, d1⟩ := commitActivityScore_bounds repo hv
  obtain ⟨e0, e1⟩ := dependencyHealthScore_bounds repo hv
  obtain ⟨f0, f1⟩ := readmeQualityScore_bounds repo hv
  have hgold : (0 : ℚ) ≤
      if 50 ≤ repo.stargazers_count ∧ repo.stargazers_count ≤ 500 then 1/10 else 0 := by
    split_ifs <;> norm_num
  have hfork : (0 : ℚ) ≤
      if repo.forks_count > 0 then min ((repo.forks_count : ℚ) / 20) (1/20) else 0 := by
    split_ifs
    · exact le_min (by positivity) (by norm_num)
    · exact le_refl 0
  unfold calculateQualityScore
  obtain ⟨om, ow, mn, mx⟩ := options
  cases om with
  | none =>
    dsimp only
    exact ⟨le_min (by linarith) (by norm_num), min_le_right _ _⟩
  | some m =>
    cases m <;>
      (dsimp only
       exact ⟨le_min (by linarith) (by norm_num), min_le_right _ _⟩)

theorem opportunityScore_bounds (repo : RepositoryDetails) (options : ScoringOptions)
    (hv : ValidRepo repo) :
    0 ≤ calculateOpportunityScore repo options
    ∧ calculateOpportunityScore repo options ≤ 1 := by
  obtain ⟨a0, a1⟩ := issueScore_bounds repo
  obtain ⟨b0, b1⟩ := contributorScore_bounds repo
  obtain ⟨c0, c1⟩ := issueResponseScore_bounds repo hv
  unfold calculateOpportunityScore
  obtain ⟨om, ow, mn, mx⟩ := options
  cases om with
  | none => dsimp only; constructor <;> linarith
  | some m => cases m <;> (dsimp only; constructor <;> linarith)

/-- C5: for a repository with valid enrichment inputs, the three dimension
scores and the final score lie in the interval from 0 to 6/5 (the
dimensions in fact stay within 0 and 1), and the final score equals the
clamp to the unit interval of the weighted dimension sum plus mode bonus
minus size and mode penalties, multiplied by 6/5 exactly when the most
recent activity (max of updated and pushed) is within 7 days, with no
re-clamp afterwards. -/
theorem scoreRepository_range_and_freshness (lg : ℚ → ℚ) (now : ℚ)
    (repo : RepositoryDetails) (skills : List NormalizedSkill)
    (options : ScoringOptions) (hv : ValidRepo repo) :
    (0 ≤ (scoreRepository lg now repo skills options).relevance
      ∧ (scoreRepository lg now repo skills options).relevance ≤ 6/5)
    ∧ (0 ≤ (scoreRepository lg now repo skills options).quality
      ∧ (scoreRepository lg now repo skills options).quality ≤ 6/5)
    ∧ (0 ≤ (scoreRepository lg now repo skills options).opportunity
      ∧ (scoreRepository lg now repo skills options).opportunity ≤ 6/5)
    ∧ (0 ≤ (scoreRepository lg now repo skills options).final
      ∧ (scoreRepository lg now repo skills options).final ≤ 6/5)
    ∧ (scoreRepository lg now repo skills options).final
        = (if daysSinceActivity now repo ≤ 7 then (6/5 : ℚ) else 1)
          * max 0 (min
              ((scoreRepository lg now repo skills options).relevance
                * (mergeWeights (getModeWeights (options.mode.getD .profileBuilding))
                    options.weights).relevance
               + (scoreRepository lg now repo skills options).quality
                * (mergeWeights (getModeWeights (options.mode.getD .profileBuilding))
                    options.weights).quality
               + (scoreRepository lg now repo skills options).opportunity
                * (mergeWeights (getModeWeights (options.mode.getD .profileBuilding))
                    options.weights).opportunity
               + calculateModeBonus now repo options
               - (calculateSizePenalty lg repo + calculateModePenalties now repo options))
              1) := by
  have hrel : (scoreRepository lg now repo skills options).relevance
      = calculateRelevanceScore repo skills options := rfl
  have hqual : (scoreRepository lg now repo skills options).quality
      = calculateQualityScore now repo options := rfl
  have hopp : (scoreRepository lg now repo skills options).opportunity
      = calculateOpportunityScore repo options := rfl
  obtain ⟨r0, r1⟩ := relevanceScore_bounds repo skills options
  obtain ⟨q0, q1⟩ := qualityScore_bounds now repo options hv
  obtain ⟨o0, o1⟩ := opportunityScore_bounds repo options hv
  refine ⟨⟨by rw [hrel]; exact r0, by rw [hrel]; linarith⟩,
          ⟨by rw [hqual]; exact q0, by rw [hqual]; linarith⟩,
          ⟨by rw [hopp]; exact o0, by rw [hopp]; linarith⟩,
          scoreRepository_final_bounds lg now repo skills options, ?_⟩
  rw [hrel, hqual, hopp, scoreRepository_final_eq]
  unfold applyFreshnessBoost applyModeBonuses
  split_ifs with hf
  · ring
  · rw [one_mul]

/-- C5 witness: the range and freshness-formula conclusion evaluated on
the bare repository, whose (absent) enrichment is trivially valid. -/
theorem scoreRepository_range_and_freshness_w :
    (0 ≤ (scoreRepository lgZero 0 bareRepo [] ⟨none, none, none, none⟩).relevance
      ∧ (scoreRepository lgZero 0 bareRepo [] ⟨none, none, none, none⟩).relevance ≤ 6/5)
    ∧ (0 ≤ (scoreRepository lgZero 0 bareRepo [] ⟨none, none, none, none⟩).quality
      ∧ (scoreRepository lgZero 0 bareRepo [] ⟨none, none, none, none⟩).quality ≤ 6/5)
    ∧ (0 ≤ (scoreRepository lgZero 0 bareRepo [] ⟨none, none, none, none⟩).opportunity
      ∧ (scoreRepository lgZero 0 bareRepo [] ⟨none, none, none, none⟩).opportunity ≤ 6/5)
    ∧ (0 ≤ (scoreRepository lgZero 0 bareRepo [] ⟨none, none, none, none⟩).final
      ∧ (scoreRepository lgZero 0 bareRepo [] ⟨none, none, none, none⟩).final ≤ 6/5)
    ∧ (scoreRepository lgZero 0 bareRepo [] ⟨none, none, none, none⟩).final
        = (if daysSinceActivity 0 bareRepo ≤ 7 then (6/5 : ℚ) else 1)
          * max 0 (min
              ((scoreRepository lgZero 0 bareRepo [] ⟨none, none, none, none⟩).relevance
                * (mergeWeights (getModeWeights
                    ((⟨none, none, none, none⟩ : ScoringOptions).mode.getD .profileBuilding))
                    (⟨none, none, none, none⟩ : ScoringOptions).weights).relevance
               + (scoreRepository lgZero 0 bareRepo [] ⟨none, none, none, none⟩).quality
                * (mergeWeights (getModeWeights
                    ((⟨none, none, none, none⟩ : ScoringOptions).mode.getD .profileBuilding))
                    (⟨none, none, none, none⟩ : ScoringOptions).weights).quality
               + (scoreRepository lgZero 0 bareRepo [] ⟨none, none, none, none⟩).opportunity
                * (mergeWeights (getModeWeights
                    ((⟨none, none, none, none⟩ : ScoringOptions).mode.getD .profileBuilding))
                    (⟨none, none, none, none⟩ : ScoringOptions).weights).opportunity
               + calculateModeBonus 0 bareRepo ⟨none, none, none, none⟩
               - (calculateSizePenalty lgZero bareRepo
                  + calculateModePenalties 0 bareRepo ⟨none, none, none, none⟩))
              1) :=
  scoreRepository_range_and_freshness lgZero 0 bareRepo [] ⟨none, none, none, none⟩
    (fun _ h => nomatch h)

/-- Two clock instants classify the repository identically for every
day-difference threshold the scorer consults: the activity thresholds
(1, 3, 7, 30, 90, 365 days on the later of updated and pushed), the
update-staleness thresholds (7, 30, 180, 365 days) and the repository-age
thresholds (30, 90, 365 days). -/
def sameTimeView (t₁ t₂ : ℚ) (repo : RepositoryDetails) : Prop :=
  ((daysSinceActivity t₁ repo ≤ 1) ↔ (daysSinceActivity t₂ repo ≤ 1))
  ∧ ((daysSinceActivity t₁ repo ≤ 3) ↔ (daysSinceActivity t₂ repo ≤ 3))
  ∧ ((daysSinceActivity t₁ repo ≤ 7) ↔ (daysSinceActivity t₂ repo ≤ 7))
  ∧ ((daysSinceActivity t₁ repo ≤ 30) ↔ (daysSinceActivity t₂ repo ≤ 30))
  ∧ ((daysSinceActivity t₁ repo ≤ 90) ↔ (daysSinceActivity t₂ repo ≤ 90))
  ∧ ((daysSinceActivity t₁ repo ≤ 365) ↔ (daysSinceActivity t₂ repo ≤ 365))
  ∧ ((daysSinceUpdate t₁ repo ≤ 7) ↔ (daysSinceUpdate t₂ repo ≤ 7))
  ∧ ((daysSinceUpdate t₁ repo ≤ 30) ↔ (daysSinceUpdate t₂ repo ≤ 30))
  ∧ ((daysSinceUpdate t₁ repo > 180) ↔ (daysSinceUpdate t₂ repo > 180))
  ∧ ((daysSinceUpdate t₁ repo > 365) ↔ (daysSinceUpdate t₂ repo > 365))
  ∧ ((daysSinceCreated t₁ repo < 30) ↔ (daysSinceCreated t₂ repo < 30))
  ∧ ((daysSinceCreated t₁ repo < 90) ↔ (daysSinceCreated t₂ repo < 90))
  ∧ ((daysSinceCreated t₁ repo > 365) ↔ (daysSinceCreated t₂ repo > 365))

/-- C4 counterexample: scoreRepository is not independent of the clock:
the same repository, skill list and options produce different final
scores when scored at the repository's own update instant and 400 days
later, because the activity score, the freshness multiplier and the
age-based adjustments all read the current time. -/
theorem scoreRepository_time_dependent_cex :
    (scoreRepository lgZero 0 qwRepo [] ⟨none, none, none, none⟩).final
      ≠ (scoreRepository lgZero 34560000000 qwRepo [] ⟨none, none, none, none⟩).final := by
  with_unfolding_all decide

/-- C4 amended: scoreRepository is a pure, deterministic function of its
explicit arguments and the current wall-clock instant, but it does depend
on that instant; the dependence flows only through the day-difference
threshold classifiers, so any two instants giving the repository the same
classification under every threshold yield identical RepositoryScore
values, for every log model, skill list and option set. -/
theorem scoreRepository_time_invariant (lg : ℚ → ℚ) (t₁ t₂ : ℚ)
    (repo : RepositoryDetails) (skills : List NormalizedSkill)
    (options : ScoringOptions) (h : sameTimeView t₁ t₂ repo) :
    scoreRepository lg t₁ repo skills options
      = scoreRepository lg t₂ repo skills options := by
  obtain ⟨h1, h3, h7, h30, h90, h365, hu7, hu30, hu180, hu365, hc30, hc90, hc365⟩ := h
  have hact : calculateActivityScore t₁ repo = calculateActivityScore t₂ repo := by
    simp only [calculateActivityScore, h1, h3, h7, h30, h90, h365]
  have hqual : calculateQualityScore t₁ repo options
      = calculateQualityScore t₂ repo options := by
    simp only [calculateQualityScore, hact]
  have hbonus : calculateModeBonus t₁ repo options
      = calculateModeBonus t₂ repo options := by
    obtain ⟨om, ow, mn, mx⟩ := options
    cases om with
    | none => rfl
    | some m =>
      cases m with
      | profileBuilding => simp only [calculateModeBonus, hc365]
      | learning => rfl
      | quickWins => simp only [calculateModeBonus, hu7, hu30]
  have hpen : calculateModePenalties t₁ repo options
      = calculateModePenalties t₂ repo options := by
    obtain ⟨om, ow, mn, mx⟩ := options
    cases om with
    | none => rfl
    | some m =>
      cases m with
      | profileBuilding => simp only [calculateModePenalties, hc30, hc90]
      | learning => simp only [calculateModePenalties, hu365]
      | quickWins => simp only [calculateModePenalties, hu180]
  have hamb : ∀ b : ℚ, applyModeBonuses lg t₁ b repo options
      = applyModeBonuses lg t₂ b repo options := by
    intro b
    simp only [applyModeBonuses, hbonus, hpen]
  have hfresh : ∀ b : ℚ, applyFreshnessBoost t₁ b repo = applyFreshnessBoost t₂ b repo := by
    intro b
    simp only [applyFreshnessBoost]
    split_ifs with ha hb hc
    · rfl
    · exact absurd (h7.mp ha) hb
    · exact absurd (h7.mpr hc) ha
    · rfl
  simp only [scoreRepository]
  rw [hact, hqual, hamb, hfresh]

/-- C4 witness: two distinct instants an hour apart, both within a day of
the concrete repository's activity, classify it identically and produce
identical scores. -/
theorem scoreRepository_time_invariant_w :
    scoreRepository lgZero 0 qwRepo [] ⟨none, none, none, none⟩
      = scoreRepository lgZero 3600000 qwRepo [] ⟨none, none, none, none⟩ :=
  scoreRepository_time_invariant lgZero 0 3600000 qwRepo [] ⟨none, none, none, none⟩
    (by unfold sameTimeView; with_unfolding_all decide)
